import Mathlib

/-!
Shallow embedding of the core services of the `llmo-prompts-intent` backend
(intent classification, vector similarity search, prompt/page matching,
opportunity generation, and the worker batch loops), together with theorems
settling the specification claims about them.

Numeric values are modelled by exact rational arithmetic (the type `Q`
below).  The only genuinely irrational operation in the source,
`numpy.linalg.norm`'s square root, is modelled by a deterministic rational
approximation (`sqrtQ`) that is exact on perfect squares; every concrete
input used in a theorem below has perfect-square norms, so the
approximation is exact there, and the structural theorems (ordering,
lengths, clamping) do not depend on the accuracy of the approximation.
-/

namespace LLMO

/-! ### Exact rational arithmetic

The Python sources compute with IEEE floats.  We model float arithmetic by
exact rational arithmetic.  `Rat` in this toolchain normalises through
`Nat.gcd`, which the kernel cannot evaluate, so concrete instances of the
theorems below could not be checked by `decide`; instead we use an
unnormalised fraction type `Q` (value `num / (den1 + 1)`, so the
denominator is positive by construction) whose operations are plain
integer arithmetic.  Order and value-equality comparisons are by
cross-multiplication and therefore representation-independent. -/

structure Q where
  num : Int
  den1 : ℕ
deriving DecidableEq

/-- The positive denominator of a `Q`. -/
def Q.den (a : Q) : ℕ := a.den1 + 1

/-- The fraction `n / d` (for `d ≥ 1`; `qc n 0` degenerates to `n / 1`). -/
def qc (n : Int) (d : ℕ) : Q := ⟨n, d - 1⟩

/-- Zero. -/
def Qzero : Q := ⟨0, 0⟩

/-- One. -/
def Qone : Q := ⟨1, 0⟩

/-- An integer as a `Q`. -/
def Qint (n : Int) : Q := ⟨n, 0⟩

/-- Addition of fractions (no normalisation). -/
def Qadd (a b : Q) : Q :=
  ⟨a.num * (b.den : Int) + b.num * (a.den : Int), a.den * b.den - 1⟩

/-- Negation. -/
def Qneg (a : Q) : Q := ⟨-a.num, a.den1⟩

/-- Subtraction. -/
def Qsub (a b : Q) : Q := Qadd a (Qneg b)

/-- Multiplication of fractions (no normalisation). -/
def Qmul (a b : Q) : Q := ⟨a.num * b.num, a.den * b.den - 1⟩

/-- Reciprocal; the reciprocal of a zero fraction is zero (reciprocals are
only taken behind zero guards in the modelled code). -/
def Qinv (a : Q) : Q :=
  if a.num > 0 then ⟨(a.den : Int), a.num.toNat - 1⟩
  else if a.num < 0 then ⟨-(a.den : Int), a.num.natAbs - 1⟩
  else Qzero

/-- Division. -/
def Qdiv (a b : Q) : Q := Qmul a (Qinv b)

/-- Value-level order, by cross-multiplication. -/
def Qle (a b : Q) : Prop := a.num * (b.den : Int) ≤ b.num * (a.den : Int)

instance (a b : Q) : Decidable (Qle a b) :=
  inferInstanceAs (Decidable (_ ≤ _))

/-- Strict value-level order. -/
def Qlt (a b : Q) : Prop := a.num * (b.den : Int) < b.num * (a.den : Int)

instance (a b : Q) : Decidable (Qlt a b) :=
  inferInstanceAs (Decidable (_ < _))

/-- Python `min` on two floats (returns the first argument on ties). -/
def Qmin (a b : Q) : Q := if Qle a b then a else b

/-- Python `max` on two floats (returns the first argument on ties). -/
def Qmax (a b : Q) : Q := if Qle b a then a else b

/-- Absolute value. -/
def Qabs (a : Q) : Q := ⟨(a.num.natAbs : Int), a.den1⟩

/-- Value-level test against zero (`x == 0` in Python). -/
def QisZero (a : Q) : Prop := a.num = 0

instance (a : Q) : Decidable (QisZero a) :=
  inferInstanceAs (Decidable (_ = _))

/-- Fuelled integer Newton iteration for the floor square root. -/
def isqrtIter : ℕ → ℕ → ℕ → ℕ
  | 0, _, g => g
  | f + 1, n, g =>
    let next := (g + n / g) / 2
    if next < g then isqrtIter f n next else g

/-- Floor square root of a natural number (Newton's method; the fuel of 200
iterations is far beyond convergence for any input arising here). -/
def isqrt (n : ℕ) : ℕ :=
  if n = 0 then 0 else isqrtIter 200 n n

/-- Stand-in for `numpy`'s float square root: a deterministic rational
approximation with 6 fractional decimal digits of precision, exact whenever
the true square root is an integer divided by `10^6` (in particular on
perfect squares).  Like float `sqrt`, it is a total approximation of the
real square root; non-positive inputs map to zero (`norm` inputs are sums
of squares, so only exact zero occurs). -/
def sqrtQ (a : Q) : Q :=
  if a.num ≤ 0 then Qzero
  else ⟨(isqrt (a.num.toNat * a.den * 1000000000000) : Int), a.den * 1000000 - 1⟩

/-! ### Python-style string helpers -/

/-- Word characters in the sense of the regexes `\w` used by the source
(`re.findall(r'\w+', ...)` and word boundaries). -/
def isWordChar (c : Char) : Bool :=
  c.isAlpha || c.isDigit || c = '_'

/-- The maximal runs of characters satisfying `p`, in order (separator
characters are dropped, empty runs do not occur). -/
def runsOf (p : Char → Bool) (l : List Char) : List String :=
  let st := l.foldr
    (fun c (st : List Char × List String) =>
      if p c then (c :: st.1, st.2)
      else ([], if st.1 = [] then st.2 else String.mk st.1 :: st.2))
    ([], [])
  if st.1 = [] then st.2 else String.mk st.1 :: st.2

/-- The maximal runs of word characters of a string: Python
`re.findall(r'\w+', s)`. -/
def wordsOf (s : String) : List String :=
  runsOf isWordChar s.toList

/-- Python `s.split()` with no argument: split on whitespace runs,
dropping empty pieces. -/
def pySplitWs (s : String) : List String :=
  runsOf (fun c => !c.isWhitespace) s.toList

/-- Python `s.lower()` (over the ASCII texts modelled here). -/
def strLower (s : String) : String :=
  String.mk (s.toList.map Char.toLower)

/-- Python `s.strip()`: remove leading and trailing whitespace. -/
def strTrim (s : String) : String :=
  String.mk (((s.toList.dropWhile Char.isWhitespace).reverse.dropWhile
    Char.isWhitespace).reverse)

/-- Python `s.endswith(suf)`. -/
def strEndsWith (s suf : String) : Bool :=
  suf.toList.isSuffixOf s.toList

/-- Python `s.startswith(pre)`. -/
def strStartsWith (s pre : String) : Bool :=
  pre.toList.isPrefixOf s.toList

/-- Python `needle in hay` substring test. -/
def strContains (hay needle : String) : Bool :=
  let h := hay.toList
  (List.range (h.length + 1)).any (fun i => needle.toList.isPrefixOf (h.drop i))

/-- Python `s[:n]` (character-based slicing). -/
def strTake (s : String) (n : ℕ) : String :=
  String.mk (s.toList.take n)

/-- Python `s[i:i+n]` (character-based slicing). -/
def strSlice (s : String) (i n : ℕ) : String :=
  String.mk ((s.toList.drop i).take n)

/-- Python `range(start, stop, step)` for a positive step, on naturals
(a `stop` that would be negative in Python is represented by `0`). -/
def pyRange (start stop step : ℕ) : List ℕ :=
  (List.range ((stop - start + step - 1) / step)).map (fun j => start + j * step)

/-! ### A small regex engine

Just enough of Python `re` to run the classifier's pattern tables: literal
characters, `.`, `\s`, `\d`, concatenation, alternation, `*` (hence `+` and
`?`), and the word boundary `\b`.  Matching is a fuelled backtracking
search returning all ways a prefix of the input can be consumed. -/

inductive RE where
  | eps : RE
  | chr : Char → RE
  | anyc : RE
  | wsc : RE
  | dgt : RE
  | seq : RE → RE → RE
  | alt : RE → RE → RE
  | star : RE → RE
  | wb : RE

/-- Structural size of a regex, used to compute a sufficient fuel bound. -/
def reSize : RE → ℕ
  | .eps => 1
  | .chr _ => 1
  | .anyc => 1
  | .wsc => 1
  | .dgt => 1
  | .seq a b => reSize a + reSize b + 1
  | .alt a b => reSize a + reSize b + 1
  | .star a => reSize a + 1
  | .wb => 1

/-- Word-boundary test between the previously consumed character and the
rest of the input (`none` stands for the edge of the string). -/
def atBoundary (prev : Option Char) (s : List Char) : Bool :=
  let pw := match prev with
    | some c => isWordChar c
    | none => false
  let nw := match s with
    | c :: _ => isWordChar c
    | [] => false
  pw != nw

/-- Fuelled backtracking matcher.  Each result is the last consumed
character paired with the remaining input. -/
def matchM : ℕ → RE → Option Char → List Char → List (Option Char × List Char)
  | 0, _, _, _ => []
  | _ + 1, .eps, prev, s => [(prev, s)]
  | _ + 1, .chr c, _, s =>
    match s with
    | [] => []
    | x :: xs => if x = c then [(some x, xs)] else []
  | _ + 1, .anyc, _, s =>
    match s with
    | [] => []
    | x :: xs => if x = '\n' then [] else [(some x, xs)]
  | _ + 1, .wsc, _, s =>
    match s with
    | [] => []
    | x :: xs => if x.isWhitespace then [(some x, xs)] else []
  | _ + 1, .dgt, _, s =>
    match s with
    | [] => []
    | x :: xs => if x.isDigit then [(some x, xs)] else []
  | _ + 1, .wb, prev, s => if atBoundary prev s then [(prev, s)] else []
  | f + 1, .seq a b, prev, s =>
    (matchM f a prev s).flatMap (fun pr => matchM f b pr.1 pr.2)
  | f + 1, .alt a b, prev, s => matchM f a prev s ++ matchM f b prev s
  | f + 1, .star a, prev, s =>
    (prev, s) :: (matchM f a prev s).flatMap
      (fun pr => if pr.2.length < s.length then matchM f (.star a) pr.1 pr.2 else [])

/-- Try to match `r` at the current position, else advance one character;
this realises Python `re.search` (match anywhere in the string). -/
def searchFrom (r : RE) (fuel : ℕ) : Option Char → List Char → Bool
  | prev, [] => !(matchM fuel r prev []).isEmpty
  | prev, c :: cs =>
    !(matchM fuel r prev (c :: cs)).isEmpty || searchFrom r fuel (some c) cs

/-- Python `re.search(pattern, text) is not None`. -/
def reSearch (r : RE) (s : String) : Bool :=
  let l := s.toList
  searchFrom r ((l.length + 2) * (reSize r + 2) * 2) none l

/-- Concatenation of a list of regexes. -/
def rcat (l : List RE) : RE := l.foldr RE.seq RE.eps

/-- A literal string. -/
def lit (s : String) : RE := rcat (s.toList.map RE.chr)

/-- Alternation of a nonempty list of regexes (empty list degenerates to ε). -/
def ralt : List RE → RE
  | [] => RE.eps
  | [r] => r
  | r :: rs => RE.alt r (ralt rs)

/-- `r?` -/
def ropt (r : RE) : RE := RE.alt r RE.eps

/-- `r+` -/
def rplus (r : RE) : RE := RE.seq r (RE.star r)

/-- `\s+` -/
def sp1 : RE := rplus RE.wsc

/-- `\s*` -/
def sp0 : RE := RE.star RE.wsc

/-- `.*` -/
def dotstar : RE := RE.star RE.anyc

/-- `\d+` -/
def digits1 : RE := rplus RE.dgt

/-- `\bword\b` -/
def bw (s : String) : RE := rcat [RE.wb, lit s, RE.wb]

/-- The apostrophe character, as appearing in patterns such as `doesn'?t`. -/
def apos : RE := RE.chr '\x27'

/-- `[s]?` / `s?` plural marker. -/
def optS : RE := ropt (RE.chr 's')

/-! ### Intent classifier (`app/services/intent_classifier.py`) -/

/-- The 13-value intent taxonomy (`IntentType`). -/
inductive IntentType where
  | transactional
  | navigational
  | informational
  | commercial
  | exploratory
  | comparison
  | troubleshooting
  | opinion_seeking
  | emotional
  | procedural
  | regulatory
  | brand_monitoring
  | meta
deriving DecidableEq, BEq

/-- Result of intent classification (`IntentResult`). -/
structure IntentResult where
  intent : IntentType
  transaction_score : Q
  confidence : Q
  signals : List String
deriving DecidableEq

/-- One `(pattern, weight)` rule; `src` is the pattern's source text, kept
for the `"Matched: <pattern>"` signal strings. -/
structure PatRule where
  src : String
  re : RE
  w : Q

/-- `TRANSACTIONAL_PATTERNS` -/
def TRANSACTIONAL_PATTERNS : List PatRule := [
  ⟨"\\bbuy\\b", bw "buy", qc 8 10⟩,
  ⟨"\\bpurchase\\b", bw "purchase", qc 8 10⟩,
  ⟨"\\border\\b", bw "order", qc 7 10⟩,
  ⟨"\\bbook\\b", bw "book", qc 7 10⟩,
  ⟨"\\breserve\\b", bw "reserve", qc 7 10⟩,
  ⟨"\\bsubscribe\\b", bw "subscribe", qc 7 10⟩,
  ⟨"\\bsign\\s*up\\b", rcat [RE.wb, lit "sign", sp0, lit "up", RE.wb], qc 6 10⟩,
  ⟨"\\bregister\\b", bw "register", qc 5 10⟩,
  ⟨"\\bdownload\\b", bw "download", qc 5 10⟩,
  ⟨"\\bget\\s+started\\b", rcat [RE.wb, lit "get", sp1, lit "started", RE.wb], qc 6 10⟩,
  ⟨"\\bprice\\b", bw "price", qc 5 10⟩,
  ⟨"\\bcost\\b", bw "cost", qc 5 10⟩,
  ⟨"\\bhow\\s+much\\b", rcat [RE.wb, lit "how", sp1, lit "much", RE.wb], qc 5 10⟩,
  ⟨"\\bcheap(est)?\\b", rcat [RE.wb, lit "cheap", ropt (lit "est"), RE.wb], qc 6 10⟩,
  ⟨"\\bdiscount\\b", bw "discount", qc 7 10⟩,
  ⟨"\\bdeal(s)?\\b", rcat [RE.wb, lit "deal", optS, RE.wb], qc 6 10⟩,
  ⟨"\\bpromo\\s*code\\b", rcat [RE.wb, lit "promo", sp0, lit "code", RE.wb], qc 8 10⟩,
  ⟨"\\bcoupon\\b", bw "coupon", qc 8 10⟩,
  ⟨"\\bsale\\b", bw "sale", qc 7 10⟩,
  ⟨"\\boffer(s)?\\b", rcat [RE.wb, lit "offer", optS, RE.wb], qc 5 10⟩,
  ⟨"\\bblack\\s*friday\\b", rcat [RE.wb, lit "black", sp0, lit "friday", RE.wb], qc 85 100⟩,
  ⟨"\\bcyber\\s*monday\\b", rcat [RE.wb, lit "cyber", sp0, lit "monday", RE.wb], qc 85 100⟩,
  ⟨"\\bprime\\s*day\\b", rcat [RE.wb, lit "prime", sp0, lit "day", RE.wb], qc 8 10⟩,
  ⟨"\\bholiday\\s+sale\\b", rcat [RE.wb, lit "holiday", sp1, lit "sale", RE.wb], qc 8 10⟩,
  ⟨"\\bflash\\s+sale\\b", rcat [RE.wb, lit "flash", sp1, lit "sale", RE.wb], qc 8 10⟩,
  ⟨"\\bclearance\\b", bw "clearance", qc 7 10⟩,
  ⟨"\\blimited\\s+(time\\s+)?offer\\b",
    rcat [RE.wb, lit "limited", sp1, ropt (rcat [lit "time", sp1]), lit "offer", RE.wb], qc 7 10⟩,
  ⟨"\\bget\\s+(a|the)?\\s*quote\\b",
    rcat [RE.wb, lit "get", sp1, ropt (ralt [lit "a", lit "the"]), sp0, lit "quote", RE.wb], qc 7 10⟩,
  ⟨"\\bcalculat(e|or)\\b", rcat [RE.wb, lit "calculat", ralt [lit "e", lit "or"], RE.wb], qc 5 10⟩,
  ⟨"\\badd\\s+to\\s+cart\\b", rcat [RE.wb, lit "add", sp1, lit "to", sp1, lit "cart", RE.wb], qc 9 10⟩,
  ⟨"\\bcheckout\\b", bw "checkout", qc 9 10⟩]

/-- `NAVIGATIONAL_PATTERNS` -/
def NAVIGATIONAL_PATTERNS : List PatRule := [
  ⟨"\\bmanage\\s+(my\\s+)?booking\\b",
    rcat [RE.wb, lit "manage", sp1, ropt (rcat [lit "my", sp1]), lit "booking", RE.wb], qc 9 10⟩,
  ⟨"\\bmy\\s+account\\b", rcat [RE.wb, lit "my", sp1, lit "account", RE.wb], qc 9 10⟩,
  ⟨"\\blogin\\b", bw "login", qc 9 10⟩,
  ⟨"\\blog\\s*in\\b", rcat [RE.wb, lit "log", sp0, lit "in", RE.wb], qc 9 10⟩,
  ⟨"\\bsign\\s*in\\b", rcat [RE.wb, lit "sign", sp0, lit "in", RE.wb], qc 8 10⟩,
  ⟨"\\bwebsite\\b", bw "website", qc 6 10⟩,
  ⟨"\\bofficial\\s+site\\b", rcat [RE.wb, lit "official", sp1, lit "site", RE.wb], qc 8 10⟩,
  ⟨"\\bapp\\b", bw "app", qc 4 10⟩,
  ⟨"\\bcontact\\b", bw "contact", qc 7 10⟩,
  ⟨"\\bcustomer\\s+service\\b", rcat [RE.wb, lit "customer", sp1, lit "service", RE.wb], qc 8 10⟩,
  ⟨"\\bphone\\s+number\\b", rcat [RE.wb, lit "phone", sp1, lit "number", RE.wb], qc 8 10⟩,
  ⟨"\\bnear\\s+me\\b", rcat [RE.wb, lit "near", sp1, lit "me", RE.wb], qc 6 10⟩,
  ⟨"\\blocation\\b", bw "location", qc 5 10⟩,
  ⟨"\\bfind\\s+(a|the)?\\s*store\\b",
    rcat [RE.wb, lit "find", sp1, ropt (ralt [lit "a", lit "the"]), sp0, lit "store", RE.wb], qc 7 10⟩]

/-- `INFORMATIONAL_PATTERNS` -/
def INFORMATIONAL_PATTERNS : List PatRule := [
  ⟨"\\bwhat\\s+is\\b", rcat [RE.wb, lit "what", sp1, lit "is", RE.wb], qc 7 10⟩,
  ⟨"\\bwhat\\s+are\\b", rcat [RE.wb, lit "what", sp1, lit "are", RE.wb], qc 7 10⟩,
  ⟨"\\bwhat\\s+does\\b", rcat [RE.wb, lit "what", sp1, lit "does", RE.wb], qc 7 10⟩,
  ⟨"\\bexplain\\b", bw "explain", qc 8 10⟩,
  ⟨"\\bmeaning\\b", bw "meaning", qc 8 10⟩,
  ⟨"\\bdefinition\\b", bw "definition", qc 9 10⟩,
  ⟨"\\blearn\\s+about\\b", rcat [RE.wb, lit "learn", sp1, lit "about", RE.wb], qc 7 10⟩,
  ⟨"\\bunderstand\\b", bw "understand", qc 6 10⟩,
  ⟨"\\bguide\\b", bw "guide", qc 5 10⟩,
  ⟨"\\bfact[s]?\\b", rcat [RE.wb, lit "fact", optS, RE.wb], qc 5 10⟩,
  ⟨"\\bhistory\\s+of\\b", rcat [RE.wb, lit "history", sp1, lit "of", RE.wb], qc 6 10⟩,
  ⟨"\\boverview\\b", bw "overview", qc 5 10⟩]

/-- `COMMERCIAL_PATTERNS` -/
def COMMERCIAL_PATTERNS : List PatRule := [
  ⟨"\\bbest\\b", bw "best", qc 7 10⟩,
  ⟨"\\btop\\s+\\d+\\b", rcat [RE.wb, lit "top", sp1, digits1, RE.wb], qc 7 10⟩,
  ⟨"\\breview[s]?\\b", rcat [RE.wb, lit "review", optS, RE.wb], qc 7 10⟩,
  ⟨"\\brating[s]?\\b", rcat [RE.wb, lit "rating", optS, RE.wb], qc 5 10⟩,
  ⟨"\\bcompar(e|ison)\\b", rcat [RE.wb, lit "compar", ralt [lit "e", lit "ison"], RE.wb], qc 6 10⟩,
  ⟨"\\balternative[s]?\\b", rcat [RE.wb, lit "alternative", optS, RE.wb], qc 6 10⟩,
  ⟨"\\brecommend(ed|ation)?\\b",
    rcat [RE.wb, lit "recommend", ropt (ralt [lit "ed", lit "ation"]), RE.wb], qc 6 10⟩,
  ⟨"\\bpros\\s+and\\s+cons\\b", rcat [RE.wb, lit "pros", sp1, lit "and", sp1, lit "cons", RE.wb], qc 7 10⟩,
  ⟨"\\bworth\\s+it\\b", rcat [RE.wb, lit "worth", sp1, lit "it", RE.wb], qc 7 10⟩,
  ⟨"\\bshould\\s+i\\s+(buy|get|use|book)\\b",
    rcat [RE.wb, lit "should", sp1, lit "i", sp1,
      ralt [lit "buy", lit "get", lit "use", lit "book"], RE.wb], qc 8 10⟩]

/-- `COMPARISON_PATTERNS` -/
def COMPARISON_PATTERNS : List PatRule := [
  ⟨"\\bvs\\.?\\b", rcat [RE.wb, lit "vs", ropt (RE.chr '.'), RE.wb], qc 8 10⟩,
  ⟨"\\bversus\\b", bw "versus", qc 8 10⟩,
  ⟨"\\bor\\b.*\\bwhich\\b",
    rcat [RE.wb, lit "or", RE.wb, dotstar, RE.wb, lit "which", RE.wb], qc 7 10⟩,
  ⟨"\\bwhich\\s+is\\s+better\\b",
    rcat [RE.wb, lit "which", sp1, lit "is", sp1, lit "better", RE.wb], qc 9 10⟩,
  ⟨"\\bwhich\\s+one\\b", rcat [RE.wb, lit "which", sp1, lit "one", RE.wb], qc 6 10⟩,
  ⟨"\\bcompare\\s+.*\\s+(to|with|and)\\b",
    rcat [RE.wb, lit "compare", sp1, dotstar, sp1,
      ralt [lit "to", lit "with", lit "and"], RE.wb], qc 8 10⟩,
  ⟨"\\bdifference\\s+between\\b",
    rcat [RE.wb, lit "difference", sp1, lit "between", RE.wb], qc 7 10⟩,
  ⟨"\\b(.*)\\s+or\\s+(.*)\\?",
    rcat [RE.wb, dotstar, sp1, lit "or", sp1, dotstar, RE.chr '?'], qc 6 10⟩]

/-- `EXPLORATORY_PATTERNS` -/
def EXPLORATORY_PATTERNS : List PatRule := [
  ⟨"\\btell\\s+me\\s+about\\b", rcat [RE.wb, lit "tell", sp1, lit "me", sp1, lit "about", RE.wb], qc 8 10⟩,
  ⟨"\\bwhat\\s+(can|do)\\s+you\\s+(tell|know)\\b",
    rcat [RE.wb, lit "what", sp1, ralt [lit "can", lit "do"], sp1, lit "you", sp1,
      ralt [lit "tell", lit "know"], RE.wb], qc 7 10⟩,
  ⟨"\\binterested\\s+in\\b", rcat [RE.wb, lit "interested", sp1, lit "in", RE.wb], qc 5 10⟩,
  ⟨"\\bcurious\\s+about\\b", rcat [RE.wb, lit "curious", sp1, lit "about", RE.wb], qc 6 10⟩,
  ⟨"\\bexplore\\b", bw "explore", qc 6 10⟩,
  ⟨"\\bdiscover\\b", bw "discover", qc 5 10⟩,
  ⟨"\\blearn\\s+more\\b", rcat [RE.wb, lit "learn", sp1, lit "more", RE.wb], qc 6 10⟩,
  ⟨"\\bfind\\s+out\\b", rcat [RE.wb, lit "find", sp1, lit "out", RE.wb], qc 5 10⟩,
  ⟨"\\bshow\\s+me\\b", rcat [RE.wb, lit "show", sp1, lit "me", RE.wb], qc 5 10⟩,
  ⟨"\\bwhat\\s+are\\s+some\\b", rcat [RE.wb, lit "what", sp1, lit "are", sp1, lit "some", RE.wb], qc 6 10⟩]

/-- `TROUBLESHOOTING_PATTERNS` -/
def TROUBLESHOOTING_PATTERNS : List PatRule := [
  ⟨"\\bnot\\s+working\\b", rcat [RE.wb, lit "not", sp1, lit "working", RE.wb], qc 9 10⟩,
  ⟨"\\bdoesn\x27?t\\s+work\\b",
    rcat [RE.wb, lit "doesn", ropt apos, lit "t", sp1, lit "work", RE.wb], qc 9 10⟩,
  ⟨"\\bwon\x27?t\\s+(load|open|start|work)\\b",
    rcat [RE.wb, lit "won", ropt apos, lit "t", sp1,
      ralt [lit "load", lit "open", lit "start", lit "work"], RE.wb], qc 8 10⟩,
  ⟨"\\berror\\b", bw "error", qc 8 10⟩,
  ⟨"\\bproblem\\s+with\\b", rcat [RE.wb, lit "problem", sp1, lit "with", RE.wb], qc 7 10⟩,
  ⟨"\\bissue\\s+with\\b", rcat [RE.wb, lit "issue", sp1, lit "with", RE.wb], qc 7 10⟩,
  ⟨"\\bfix\\b", bw "fix", qc 6 10⟩,
  ⟨"\\bsolve\\b", bw "solve", qc 6 10⟩,
  ⟨"\\btroubleshoot\\b", bw "troubleshoot", qc 9 10⟩,
  ⟨"\\bcan\x27?t\\s+(find|access|see|get|login|book)\\b",
    rcat [RE.wb, lit "can", ropt apos, lit "t", sp1,
      ralt [lit "find", lit "access", lit "see", lit "get", lit "login", lit "book"], RE.wb], qc 7 10⟩,
  ⟨"\\bfailed\\b", bw "failed", qc 6 10⟩,
  ⟨"\\bwhy\\s+(is|isn\x27?t|does|doesn\x27?t|can\x27?t|won\x27?t)\\b",
    rcat [RE.wb, lit "why", sp1,
      ralt [lit "is", rcat [lit "isn", ropt apos, lit "t"], lit "does",
        rcat [lit "doesn", ropt apos, lit "t"], rcat [lit "can", ropt apos, lit "t"],
        rcat [lit "won", ropt apos, lit "t"]], RE.wb], qc 6 10⟩,
  ⟨"\\bhelp\\s+(me\\s+)?with\\b",
    rcat [RE.wb, lit "help", sp1, ropt (rcat [lit "me", sp1]), lit "with", RE.wb], qc 5 10⟩]

/-- `OPINION_SEEKING_PATTERNS` -/
def OPINION_SEEKING_PATTERNS : List PatRule := [
  ⟨"\\bany\\s+good\\b", rcat [RE.wb, lit "any", sp1, lit "good", RE.wb], qc 9 10⟩,
  ⟨"\\bworth\\s+(it|the)\\b",
    rcat [RE.wb, lit "worth", sp1, ralt [lit "it", lit "the"], RE.wb], qc 8 10⟩,
  ⟨"\\bgood\\s+choice\\b", rcat [RE.wb, lit "good", sp1, lit "choice", RE.wb], qc 7 10⟩,
  ⟨"\\bwhat\\s+do\\s+you\\s+think\\b",
    rcat [RE.wb, lit "what", sp1, lit "do", sp1, lit "you", sp1, lit "think", RE.wb], qc 9 10⟩,
  ⟨"\\bopinion\\s+on\\b", rcat [RE.wb, lit "opinion", sp1, lit "on", RE.wb], qc 9 10⟩,
  ⟨"\\byour\\s+thoughts\\b", rcat [RE.wb, lit "your", sp1, lit "thoughts", RE.wb], qc 8 10⟩,
  ⟨"\\bhow\\s+(good|bad)\\s+is\\b",
    rcat [RE.wb, lit "how", sp1, ralt [lit "good", lit "bad"], sp1, lit "is", RE.wb], qc 7 10⟩,
  ⟨"\\breliable\\b", bw "reliable", qc 5 10⟩,
  ⟨"\\btrustworthy\\b", bw "trustworthy", qc 6 10⟩,
  ⟨"\\breputable\\b", bw "reputable", qc 6 10⟩,
  ⟨"\\bdo\\s+you\\s+recommend\\b",
    rcat [RE.wb, lit "do", sp1, lit "you", sp1, lit "recommend", RE.wb], qc 8 10⟩,
  ⟨"\\bis\\s+it\\s+(safe|good|worth|legit)\\b",
    rcat [RE.wb, lit "is", sp1, lit "it", sp1,
      ralt [lit "safe", lit "good", lit "worth", lit "legit"], RE.wb], qc 7 10⟩]

/-- `EMOTIONAL_PATTERNS` -/
def EMOTIONAL_PATTERNS : List PatRule := [
  ⟨"\\bawful\\b", bw "awful", qc 8 10⟩,
  ⟨"\\bterrible\\b", bw "terrible", qc 8 10⟩,
  ⟨"\\bhorrible\\b", bw "horrible", qc 8 10⟩,
  ⟨"\\bamazing\\b", bw "amazing", qc 7 10⟩,
  ⟨"\\bfantastic\\b", bw "fantastic", qc 7 10⟩,
  ⟨"\\bi\\s+(love|hate|loved|hated)\\b",
    rcat [RE.wb, lit "i", sp1,
      ralt [lit "love", lit "hate", lit "loved", lit "hated"], RE.wb], qc 9 10⟩,
  ⟨"\\bworst\\b", bw "worst", qc 8 10⟩,
  ⟨"\\bbest\\s+experience\\b", rcat [RE.wb, lit "best", sp1, lit "experience", RE.wb], qc 7 10⟩,
  ⟨"\\bdisappoint(ed|ing)\\b",
    rcat [RE.wb, lit "disappoint", ralt [lit "ed", lit "ing"], RE.wb], qc 8 10⟩,
  ⟨"\\bfrustrat(ed|ing)\\b",
    rcat [RE.wb, lit "frustrat", ralt [lit "ed", lit "ing"], RE.wb], qc 8 10⟩,
  ⟨"\\bangry\\b", bw "angry", qc 8 10⟩,
  ⟨"\\bhappy\\s+with\\b", rcat [RE.wb, lit "happy", sp1, lit "with", RE.wb], qc 6 10⟩,
  ⟨"\\bnightmare\\b", bw "nightmare", qc 9 10⟩,
  ⟨"\\bwonderful\\b", bw "wonderful", qc 7 10⟩,
  ⟨"\\bexcited\\b", bw "excited", qc 6 10⟩]

/-- `PROCEDURAL_PATTERNS` -/
def PROCEDURAL_PATTERNS : List PatRule := [
  ⟨"\\bhow\\s+to\\b", rcat [RE.wb, lit "how", sp1, lit "to", RE.wb], qc 8 10⟩,
  ⟨"\\bhow\\s+do\\s+(i|you)\\b",
    rcat [RE.wb, lit "how", sp1, lit "do", sp1, ralt [lit "i", lit "you"], RE.wb], qc 8 10⟩,
  ⟨"\\bhow\\s+can\\s+i\\b", rcat [RE.wb, lit "how", sp1, lit "can", sp1, lit "i", RE.wb], qc 7 10⟩,
  ⟨"\\bstep[s]?\\s+to\\b", rcat [RE.wb, lit "step", optS, sp1, lit "to", RE.wb], qc 9 10⟩,
  ⟨"\\bstep\\s+by\\s+step\\b",
    rcat [RE.wb, lit "step", sp1, lit "by", sp1, lit "step", RE.wb], qc 9 10⟩,
  ⟨"\\bprocess\\s+(for|to|of)\\b",
    rcat [RE.wb, lit "process", sp1, ralt [lit "for", lit "to", lit "of"], RE.wb], qc 6 10⟩,
  ⟨"\\bprocedure\\b", bw "procedure", qc 7 10⟩,
  ⟨"\\btutorial\\b", bw "tutorial", qc 6 10⟩,
  ⟨"\\binstructions\\b", bw "instructions", qc 7 10⟩,
  ⟨"\\bway\\s+to\\b", rcat [RE.wb, lit "way", sp1, lit "to", RE.wb], qc 5 10⟩,
  ⟨"\\b(upgrade|change|cancel|modify|update)\\s+(my|a|the)\\b",
    rcat [RE.wb, ralt [lit "upgrade", lit "change", lit "cancel", lit "modify", lit "update"],
      sp1, ralt [lit "my", lit "a", lit "the"], RE.wb], qc 7 10⟩]

/-- `REGULATORY_PATTERNS` -/
def REGULATORY_PATTERNS : List PatRule := [
  ⟨"\\bpolicy\\b", bw "policy", qc 7 10⟩,
  ⟨"\\bpolicies\\b", bw "policies", qc 7 10⟩,
  ⟨"\\brule[s]?\\b", rcat [RE.wb, lit "rule", optS, RE.wb], qc 7 10⟩,
  ⟨"\\bregulation[s]?\\b", rcat [RE.wb, lit "regulation", optS, RE.wb], qc 8 10⟩,
  ⟨"\\blaw[s]?\\b", rcat [RE.wb, lit "law", optS, RE.wb], qc 7 10⟩,
  ⟨"\\blegal\\b", bw "legal", qc 6 10⟩,
  ⟨"\\brequirement[s]?\\b", rcat [RE.wb, lit "requirement", optS, RE.wb], qc 6 10⟩,
  ⟨"\\brestriction[s]?\\b", rcat [RE.wb, lit "restriction", optS, RE.wb], qc 6 10⟩,
  ⟨"\\bterms\\s+(and|&)\\s+conditions\\b",
    rcat [RE.wb, lit "terms", sp1, ralt [lit "and", lit "&"], sp1, lit "conditions", RE.wb], qc 9 10⟩,
  ⟨"\\bterms\\s+of\\s+(service|use)\\b",
    rcat [RE.wb, lit "terms", sp1, lit "of", sp1, ralt [lit "service", lit "use"], RE.wb], qc 8 10⟩,
  ⟨"\\bprivacy\\s+policy\\b", rcat [RE.wb, lit "privacy", sp1, lit "policy", RE.wb], qc 8 10⟩,
  ⟨"\\brefund\\s+policy\\b", rcat [RE.wb, lit "refund", sp1, lit "policy", RE.wb], qc 8 10⟩,
  ⟨"\\ballowed\\b", bw "allowed", qc 5 10⟩,
  ⟨"\\bpermitted\\b", bw "permitted", qc 6 10⟩,
  ⟨"\\bprohibited\\b", bw "prohibited", qc 7 10⟩,
  ⟨"\\beu\\s*261\\b", rcat [RE.wb, lit "eu", sp0, lit "261", RE.wb], qc 9 10⟩,
  ⟨"\\bgdpr\\b", bw "gdpr", qc 9 10⟩,
  ⟨"\\bcomplian(ce|t)\\b", rcat [RE.wb, lit "complian", ralt [lit "ce", lit "t"], RE.wb], qc 7 10⟩]

/-- `BRAND_MONITORING_PATTERNS` -/
def BRAND_MONITORING_PATTERNS : List PatRule := [
  ⟨"\\bwhat\\s+(did|does|do)\\s+.*\\s+say\\b",
    rcat [RE.wb, lit "what", sp1, ralt [lit "did", lit "does", lit "do"], sp1, dotstar,
      sp1, lit "say", RE.wb], qc 8 10⟩,
  ⟨"\\bnews\\s+about\\b", rcat [RE.wb, lit "news", sp1, lit "about", RE.wb], qc 8 10⟩,
  ⟨"\\blatest\\s+news\\b", rcat [RE.wb, lit "latest", sp1, lit "news", RE.wb], qc 8 10⟩,
  ⟨"\\barticle[s]?\\s+about\\b",
    rcat [RE.wb, lit "article", optS, sp1, lit "about", RE.wb], qc 7 10⟩,
  ⟨"\\bmedia\\s+coverage\\b", rcat [RE.wb, lit "media", sp1, lit "coverage", RE.wb], qc 9 10⟩,
  ⟨"\\bpress\\s+release\\b", rcat [RE.wb, lit "press", sp1, lit "release", RE.wb], qc 8 10⟩,
  ⟨"\\bmentioned\\s+in\\b", rcat [RE.wb, lit "mentioned", sp1, lit "in", RE.wb], qc 7 10⟩,
  ⟨"\\breported\\b", bw "reported", qc 6 10⟩,
  ⟨"\\bcoverage\\s+of\\b", rcat [RE.wb, lit "coverage", sp1, lit "of", RE.wb], qc 7 10⟩,
  ⟨"\\bheadlines\\b", bw "headlines", qc 7 10⟩,
  ⟨"\\bwhat\\s+.*\\s+wrote\\b",
    rcat [RE.wb, lit "what", sp1, dotstar, sp1, lit "wrote", RE.wb], qc 7 10⟩]

/-- `META_PATTERNS` -/
def META_PATTERNS : List PatRule := [
  ⟨"\\bwrite\\b", bw "write", qc 8 10⟩,
  ⟨"\\bgenerate\\b", bw "generate", qc 9 10⟩,
  ⟨"\\bcreate\\b", bw "create", qc 6 10⟩,
  ⟨"\\bcompose\\b", bw "compose", qc 8 10⟩,
  ⟨"\\bdraft\\b", bw "draft", qc 7 10⟩,
  ⟨"\\bsummarize\\b", bw "summarize", qc 8 10⟩,
  ⟨"\\bsummary\\b", bw "summary", qc 7 10⟩,
  ⟨"\\btranslate\\b", bw "translate", qc 8 10⟩,
  ⟨"\\brewrite\\b", bw "rewrite", qc 9 10⟩,
  ⟨"\\bparaphrase\\b", bw "paraphrase", qc 9 10⟩,
  ⟨"\\blist\\s+of\\b", rcat [RE.wb, lit "list", sp1, lit "of", RE.wb], qc 5 10⟩,
  ⟨"\\bgive\\s+me\\s+(a|an)\\b",
    rcat [RE.wb, lit "give", sp1, lit "me", sp1, ralt [lit "a", lit "an"], RE.wb], qc 5 10⟩,
  ⟨"\\bformat\\b", bw "format", qc 6 10⟩,
  ⟨"\\bexamples?\\s+of\\b", rcat [RE.wb, lit "example", optS, sp1, lit "of", RE.wb], qc 5 10⟩]

/-- `IntentClassifierService._calculate_pattern_score`: every matching
pattern contributes its weight; the sum is normalised by `min(1, total/2)`
(`0` when nothing matched), and each match is reported as a signal. -/
def calcPatternScore (text : String) (pats : List PatRule) : Q × List String :=
  let matched := pats.filter (fun p => reSearch p.re text)
  let total := (matched.map (fun p => p.w)).foldl Qadd Qzero
  let signals := matched.map (fun p => "Matched: " ++ p.src)
  (if Qlt Qzero total then Qmin Qone (Qdiv total (Qint 2)) else Qzero, signals)

/-- The pattern table belonging to each intent category (the `scores` dict
of `IntentClassifierService.classify`). -/
def scoreTable : IntentType → List PatRule
  | .transactional => TRANSACTIONAL_PATTERNS
  | .navigational => NAVIGATIONAL_PATTERNS
  | .informational => INFORMATIONAL_PATTERNS
  | .commercial => COMMERCIAL_PATTERNS
  | .comparison => COMPARISON_PATTERNS
  | .exploratory => EXPLORATORY_PATTERNS
  | .troubleshooting => TROUBLESHOOTING_PATTERNS
  | .opinion_seeking => OPINION_SEEKING_PATTERNS
  | .emotional => EMOTIONAL_PATTERNS
  | .procedural => PROCEDURAL_PATTERNS
  | .regulatory => REGULATORY_PATTERNS
  | .brand_monitoring => BRAND_MONITORING_PATTERNS
  | .meta => META_PATTERNS

/-- Normalised pattern score (and signals) of one category on the lowered
text. -/
def scoresOf (textLower : String) (it : IntentType) : Q × List String :=
  calcPatternScore textLower (scoreTable it)

/-- The threshold `0.25` of the selection loop. -/
def scoreThreshold : Q := qc 25 100

/-- The fixed `priority_order` list of `classify` (earlier entries are
documented in the source as winning tie-breaks). -/
def priorityOrder : List IntentType :=
  [.emotional, .meta, .troubleshooting, .transactional, .comparison, .commercial,
   .navigational, .procedural, .regulatory, .brand_monitoring, .opinion_seeking,
   .exploratory, .informational]

/-- The selection loop of `classify` (lines 357-368): scan the priority
order, replacing the running best whenever `score >= threshold` (0.25) and
`score >= best_score`. -/
def pickBest (textLower : String) : IntentType × Q × List String :=
  priorityOrder.foldl
    (fun best it =>
      let sc := scoresOf textLower it
      if Qle scoreThreshold sc.1 ∧ Qle best.2.1 sc.1 then (it, sc.1, sc.2) else best)
    (IntentType.informational, Qzero, [])

/-- `IntentClassifierService._apply_fallback_rules`. -/
def applyFallbackRules (textLower : String) : IntentType × List String :=
  if strEndsWith textLower "?" then
    if ["how to", "how do i", "how can i", "steps to"].any
        (fun w => strContains textLower w) then
      (.procedural, ["Question with \x27how to\x27 pattern"])
    else if ["why is", "why isn\x27t", "why does", "not working"].any
        (fun w => strContains textLower w) then
      (.troubleshooting, ["Question about problem"])
    else if ["policy", "rule", "allowed", "legal"].any
        (fun w => strContains textLower w) then
      (.regulatory, ["Question about rules/policy"])
    else if ["good", "worth", "recommend", "opinion"].any
        (fun w => strContains textLower w) then
      (.opinion_seeking, ["Subjective question detected"])
    else if ["best", "vs", "versus", "compare", "better"].any
        (fun w => strContains textLower w) then
      (.commercial, ["Comparison question"])
    else if ["tell me about", "what are", "explain"].any
        (fun w => strContains textLower w) then
      (.exploratory, ["Exploratory question"])
    else
      (.informational, ["General question detected"])
  else
    let firstWord := (pySplitWs textLower).headD ""
    if firstWord ∈ ["write", "generate", "create", "compose", "draft", "summarize"] then
      (.meta, ["Starts with generation verb"])
    else if firstWord ∈ ["how"] then
      (.procedural, ["Starts with \x27how\x27"])
    else if firstWord ∈ ["what", "where", "when", "who"] then
      (.informational, ["Starts with question word"])
    else if firstWord ∈ ["why"] then
      (.troubleshooting, ["Starts with \x27why\x27"])
    else if firstWord ∈ ["which"] then
      (.comparison, ["Starts with \x27which\x27"])
    else if ["book", "buy", "purchase", "order"].any (fun w => strContains textLower w) then
      (.transactional, ["Contains transaction verb"])
    else if ["login", "sign in", "my account"].any (fun w => strContains textLower w) then
      (.navigational, ["Contains navigation term"])
    else
      (.informational, ["Default classification"])

/-- `IntentClassifierService.classify`. -/
def classify (text : String) : IntentResult :=
  if text = "" ∨ strTrim text = "" then
    ⟨.informational, Qzero, Qzero, ["Empty text - defaulting to informational"]⟩
  else
    let tl := strTrim (strLower text)
    let pb := pickBest tl
    let bst :=
      if Qlt pb.2.1 scoreThreshold then
        let fb := applyFallbackRules tl
        (fb.1, qc 3 10, fb.2)
      else pb
    let transRaw := (scoresOf tl .transactional).1
    let commRaw := (scoresOf tl .commercial).1
    let compRaw := (scoresOf tl .comparison).1
    let transactionScore :=
      if bst.1 = .transactional then Qmin Qone (Qadd (qc 6 10) transRaw)
      else if bst.1 = .commercial then Qmin (qc 8 10) (Qadd (qc 4 10) commRaw)
      else if bst.1 = .comparison then Qmin (qc 7 10) (Qadd (qc 35 100) compRaw)
      else if bst.1 = .navigational ∧ Qlt (qc 2 10) transRaw then
        Qmin (qc 5 10) (Qadd (qc 3 10) transRaw)
      else if bst.1 = .opinion_seeking ∨ bst.1 = .exploratory then
        Qmin (qc 4 10) (Qadd (qc 2 10) commRaw)
      else Qmin (qc 25 100) transRaw
    ⟨bst.1, transactionScore, Qmin Qone (Qmul bst.2.1 (qc 15 10)), bst.2.2⟩

/-! ### Vector math (`app/services/embeddings.py`) -/

/-- `np.dot` on equal-length vectors. -/
def dotQ (a b : List Q) : Q :=
  (List.zipWith Qmul a b).foldl Qadd Qzero

/-- Squared Euclidean norm. -/
def norm2Q (v : List Q) : Q := dotQ v v

/-- `np.linalg.norm` (through the rational square-root stand-in). -/
def normQ (v : List Q) : Q := sqrtQ (norm2Q v)

/-- `EmbeddingService.similarity`: cosine similarity remapped to `[0,1]`;
returns `0` when either norm is zero. -/
def similarity (embedding1 embedding2 : List Q) : Q :=
  if QisZero (normQ embedding1) ∨ QisZero (normQ embedding2) then Qzero
  else Qdiv (Qadd (Qdiv (dotQ embedding1 embedding2)
    (Qmul (normQ embedding1) (normQ embedding2))) Qone) (Qint 2)

/-- The per-candidate raw cosine values of `find_most_similar`
(`dot_products / (norms_candidates * norm_query)` with `nan_to_num`
sending the NaN/Inf of a zero norm product to `0`). -/
def rawSimilarities (query : List Q) (cands : List (List Q)) : List Q :=
  cands.map (fun c =>
    if QisZero (Qmul (normQ c) (normQ query)) then Qzero
    else Qdiv (dotQ c query) (Qmul (normQ c) (normQ query)))

/-- Stable insertion (by ascending key, ties keeping insertion order)
realising one step of `np.argsort`. -/
def insertAsc (key : ℕ → Q) (i : ℕ) : List ℕ → List ℕ
  | [] => [i]
  | j :: js => if Qlt (key i) (key j) then i :: j :: js else j :: insertAsc key i js

/-- `np.argsort` (ascending, stable) over the keys of `0, …, n-1`. -/
def argsortAsc (key : ℕ → Q) (n : ℕ) : List ℕ :=
  (List.range n).foldl (fun acc i => insertAsc key i acc) []

/-- The `[0,1]`-remapped similarities `(s + 1) / 2` of `find_most_similar`. -/
def simsOf (query : List Q) (cands : List (List Q)) : List Q :=
  (rawSimilarities query cands).map (fun s => Qdiv (Qadd s Qone) (Qint 2))

/-- `EmbeddingService.find_most_similar`: all similarities, remapped by
`(s+1)/2`, then `np.argsort(...)[::-1][:top_k]` with the scores attached.
`np.argsort`'s default sort is modelled as a stable ascending sort (numpy's
introsort is insertion sort, hence stable, on the small arrays where score
ties arise in the concrete inputs below). -/
def findMostSimilar (query : List Q) (cands : List (List Q)) (topK : ℕ) :
    List (ℕ × Q) :=
  if cands = [] then []
  else
    let sims := simsOf query cands
    let ordered := (argsortAsc (fun i => sims.getD i Qzero) sims.length).reverse
    (ordered.take topK).map (fun i => (i, sims.getD i Qzero))

/-! ### Matcher (`app/services/matcher.py`) -/

/-- `settings.MATCH_THRESHOLD_ANSWERED` (default `0.75`). -/
def thresholdAnsweredQ : Q := qc 75 100

/-- `settings.MATCH_THRESHOLD_PARTIAL` (default `0.50`). -/
def thresholdPartialQ : Q := qc 50 100

/-- `MatcherService.classify_match_status`. -/
def classifyMatchStatus (bestScore : Option Q) : String :=
  match bestScore with
  | none => "gap"
  | some b =>
    if Qle thresholdAnsweredQ b then "answered"
    else if Qle thresholdPartialQ b then "partial"
    else "gap"

/-- The stop-word set of `MatcherService._check_exact_match`. -/
def stopWords : List String :=
  ["what", "how", "is", "the", "a", "an", "to", "for", "of", "in", "on", "and",
   "or", "i", "my", "you", "your", "can", "do", "does"]

/-- `MatcherService._check_exact_match`: at least 70% of the non-stop-word
prompt words of length `> 2` appear literally in the content. -/
def checkExactMatch (prompt content : String) : Bool :=
  if prompt = "" ∨ content = "" then false
  else
    let pl := strLower prompt
    let cl := strLower content
    let ws := (wordsOf pl).filter (fun w => !(stopWords.contains w) && w.length > 2)
    if ws = [] then false
    else
      let hits := (ws.filter (fun w => strContains cl w)).length
      decide (Qle (Qmul (Qint ws.length) (qc 7 10)) (Qint hits))

/-- The keyword list of `_extract_snippet`: the first five words of the
lowered prompt that are longer than three characters. -/
def snippetKeywords (prompt : String) : List String :=
  ((wordsOf (strLower prompt)).filter (fun w => w.length > 3)).take 5

/-- Number of distinct keywords occurring in the window of `maxLength`
characters starting at `i` of the lowered content. -/
def snipScore (kws : List String) (contentLower : String) (maxLength i : ℕ) : ℕ :=
  (kws.filter (fun w => strContains (strSlice contentLower i maxLength) w)).length

/-- The candidate window starts `range(0, len(content) - window_size, 50)`. -/
def snippetStarts (content : String) (maxLength : ℕ) : List ℕ :=
  pyRange 0 (content.toList.length - maxLength) 50

/-- The `(best_start, best_score)` loop of `_extract_snippet` (strict
improvement, so the earliest window with the maximal score wins). -/
def bestWindow (kws : List String) (content : String) (maxLength : ℕ) : ℕ × ℕ :=
  let cl := strLower content
  (snippetStarts content maxLength).foldl
    (fun best i =>
      let sc := snipScore kws cl maxLength i
      if sc > best.2 then (i, sc) else best)
    (0, 0)

/-- Window slicing plus the `"..."` dressing at interior boundaries. -/
def dressSnippet (content : String) (bestStart maxLength : ℕ) : String :=
  let snippet := strSlice content bestStart maxLength
  let s1 := if 0 < bestStart then "..." ++ snippet else snippet
  if bestStart + maxLength < content.toList.length then s1 ++ "..." else s1

/-- `MatcherService._extract_snippet`. -/
def extractSnippet (prompt content : String) (maxLength : ℕ) : Option String :=
  if content = "" then none
  else
    let kws := snippetKeywords prompt
    if kws = [] then
      some (if content.toList.length > maxLength then strTake content maxLength ++ "..."
            else content)
    else
      some (dressSnippet content (bestWindow kws content maxLength).1 maxLength)

/-- A page as handed to the matcher (`{id, embedding, content, title}`;
ids are abstracted to naturals). -/
structure PageRec where
  id : ℕ
  embedding : List Q
  content : String
  title : String
deriving DecidableEq

instance : Inhabited PageRec := ⟨⟨0, [], "", ""⟩⟩

/-- One `MatchResult` row of `MatcherService.find_matches_in_memory`. -/
structure MatchResultR where
  page_id : ℕ
  similarity_score : Q
  match_type : String
  matched_snippet : Option String
  rank : ℕ
deriving DecidableEq

/-- `MatcherService.find_matches_in_memory`. -/
def findMatchesInMemory (promptEmbedding : List Q) (promptText : String)
    (pages : List PageRec) (topK : ℕ) : List MatchResultR :=
  if pages = [] then []
  else
    (((findMostSimilar promptEmbedding (pages.map (fun p => p.embedding))
      (topK * 2)).take topK).enum).map (fun pr =>
      let rank := pr.1 + 1
      let idx := pr.2.1
      let sim := pr.2.2
      let page := pages.getD idx default
      let exactMatch := checkExactMatch promptText page.content
      let simOut := if exactMatch then Qmax sim (qc 85 100) else sim
      let matchType :=
        if exactMatch then "exact"
        else if Qle thresholdPartialQ sim then "semantic"
        else "partial"
      let snippet := extractSnippet promptText page.content 300
      ⟨page.id, simOut, matchType, snippet, rank⟩)

/-! ### Opportunity generator (`app/services/opportunity_generator.py`) -/

/-- Priority weight `WEIGHT_POPULARITY = 0.4`. -/
def WEIGHT_POPULARITY : Q := qc 4 10

/-- Priority weight `WEIGHT_TRANSACTION = 0.3`. -/
def WEIGHT_TRANSACTION : Q := qc 3 10

/-- Priority weight `WEIGHT_SENTIMENT = 0.2`. -/
def WEIGHT_SENTIMENT : Q := qc 2 10

/-- Priority weight `WEIGHT_DIFFICULTY = 0.1`. -/
def WEIGHT_DIFFICULTY : Q := qc 1 10

/-- `settings.TRANSACTIONAL_THRESHOLD` (default `0.6`). -/
def TRANSACTIONAL_THRESHOLD : Q := qc 6 10

/-- The difficulty-factor breakdown of `_estimate_difficulty`. -/
structure DifficultyFactors where
  needs_new_page : Bool
  technical_complexity : Q
  content_complexity : Q
  research_required : Q
  translation_needed : Bool
deriving DecidableEq

/-- `precision_keywords` of `_estimate_difficulty`. -/
def precisionKeywords : List String :=
  ["how much", "how many", "price", "cost", "exact", "specific",
   "requirements", "deadline", "limit", "minimum", "maximum"]

/-- `comparison_keywords` of `_estimate_difficulty`. -/
def comparisonKeywords : List String :=
  ["better", "best", "compare", "vs", "difference", "which"]

/-- `technical_keywords` of `_estimate_difficulty`. -/
def technicalKeywords : List String :=
  ["api", "integration", "technical", "developer", "code", "sdk",
   "policy", "regulation", "passport", "visa", "requirement"]

/-- `policy_keywords` of `_estimate_difficulty`. -/
def policyKeywords : List String :=
  ["can i", "am i allowed", "is it possible", "do i need", "what happens if"]

/-- `OpportunityGenerator._estimate_difficulty`. -/
def estimateDifficulty (matchStatus : String) (hasRelatedPages : Bool)
    (promptText : String) (bestMatchScore : Option Q) : Q × DifficultyFactors :=
  let pl := strLower promptText
  let needsNew := matchStatus = "gap" && !hasRelatedPages
  let tech0 : Q :=
    if needsNew then qc 6 10
    else if matchStatus = "gap" then qc 4 10
    else if matchStatus = "partial" then
      match bestMatchScore with
      | some b => if ¬QisZero b then Qsub (qc 4 10) (Qmul b (qc 3 10)) else qc 25 100
      | none => qc 25 100
    else Qzero
  let wordCount := (pySplitWs promptText).length
  let contentC : Q :=
    if wordCount > 15 then qc 5 10
    else if wordCount > 10 then qc 35 100
    else if wordCount > 6 then qc 25 100
    else qc 15 100
  let research1 : Q :=
    if precisionKeywords.any (fun k => strContains pl k) then qc 3 10 else Qzero
  let research2 : Q :=
    if comparisonKeywords.any (fun k => strContains pl k) then
      Qmax research1 (qc 35 100)
    else research1
  let tech1 : Q :=
    if technicalKeywords.any (fun k => strContains pl k) then Qadd tech0 (qc 15 100)
    else tech0
  let research3 : Q :=
    if policyKeywords.any (fun k => strContains pl k) then
      Qmax research2 (qc 25 100)
    else research2
  let difficulty :=
    Qadd (Qadd (Qadd (Qmul (qc 25 100) (if needsNew then Qone else Qzero))
      (Qmul (qc 3 10) tech1)) (Qmul (qc 25 100) contentC)) (Qmul (qc 2 10) research3)
  (Qmin Qone (Qmax (qc 1 10) difficulty), ⟨needsNew, tech1, contentC, research3, false⟩)

/-- The FAQ-style question stems of `_recommend_action`. -/
def faqStems : List String :=
  ["what is", "what are", "what does", "how do", "how to", "can i", "is there"]

/-- `OpportunityGenerator._recommend_action`. -/
def recommendAction (transactionScore : Q) (matchStatus : String)
    (hasRelatedPages : Bool) (topic : Option String) (promptText : String) :
    String × String :=
  let pl := strLower promptText
  if Qle TRANSACTIONAL_THRESHOLD transactionScore then
    if matchStatus = "gap" then
      if strContains pl "price" || strContains pl "cost" || strContains pl "rate" then
        ("create_product_page",
         "High purchase intent query about pricing needs dedicated pricing/product page with clear CTAs")
      else
        ("create_landing_page",
         "High purchase intent query needs conversion-focused landing page")
    else
      ("add_cta", "Partial match exists - add or improve call-to-action for conversion")
  else if faqStems.any (fun q => strStartsWith pl q) then
    if matchStatus = "gap" then
      ("create_faq", "Common question not answered - add to FAQ or help content")
    else
      ("expand_existing", "Question partially answered - expand existing content")
  else if matchStatus = "gap" then
    if hasRelatedPages then
      ("expand_existing", "Related content exists - expand to cover this topic")
    else
      ("create_article", "No related content - create new informational article")
  else if matchStatus = "partial" then
    ("expand_existing", "Content partially addresses query - needs expansion")
  else
    ("other", "Review and determine best approach")

/-- `OpportunityData`. -/
structure OpportunityData where
  priority_score : Q
  recommended_action : String
  reason : String
  difficulty_score : Q
  difficulty_factors : DifficultyFactors
deriving DecidableEq

/-- `OpportunityGenerator.generate_opportunity`.  Note the Python idioms
`popularity_score or 0.5` (a popularity of `0.0` is falsy and also becomes
`0.5`) and `abs(sentiment_score) if sentiment_score else 0.0`. -/
def generateOpportunity (promptText : String) (topic : Option String)
    (popularityScore : Option Q) (transactionScore : Q)
    (sentimentScore : Option Q) (matchStatus : String)
    (bestMatchScore : Option Q) (hasRelatedPages : Bool) : OpportunityData :=
  let ed := estimateDifficulty matchStatus hasRelatedPages promptText bestMatchScore
  let popScore :=
    match popularityScore with
    | some p => if QisZero p then qc 5 10 else p
    | none => qc 5 10
  let sentImpact :=
    match sentimentScore with
    | some s => if QisZero s then Qzero else Qabs s
    | none => Qzero
  let priorityRaw :=
    Qsub (Qadd (Qadd (Qmul WEIGHT_POPULARITY popScore)
      (Qmul WEIGHT_TRANSACTION transactionScore))
      (Qmul WEIGHT_SENTIMENT sentImpact))
      (Qmul WEIGHT_DIFFICULTY ed.1)
  let priorityScore := Qmax Qzero (Qmin Qone priorityRaw)
  let ar := recommendAction transactionScore matchStatus hasRelatedPages topic promptText
  ⟨priorityScore, ar.1, ar.2, ed.1, ed.2⟩

/-! ### Worker tasks (`app/workers/matcher_tasks.py`, `app/workers/nlp_tasks.py`) -/

/-- A prompt row with the fields used by `match_prompts_to_pages`. -/
structure PromptRec where
  id : ℕ
  embedding : List Q
  raw_text : String
  topic : Option String
  popularity_score : Option Q
  transaction_score : Q
  sentiment_score : Option Q
  match_status : String
  best_match_score : Option Q
deriving DecidableEq

/-- A stored `Match` row (the source stores `rank=str(match_result.rank)`). -/
structure MatchRow where
  prompt_id : ℕ
  page_id : ℕ
  similarity_score : Q
  match_type : String
  matched_snippet : Option String
  rank : String
deriving DecidableEq

/-- A stored `Opportunity` row (the LLM `content_suggestion` decoration is
an out-of-scope external call and is not modelled). -/
structure OppRow where
  prompt_id : ℕ
  priority_score : Q
  difficulty_score : Q
  recommended_action : String
  reason : String
  status : String
  related_page_ids : List ℕ
deriving DecidableEq

/-- The match and opportunity tables as seen by the worker. -/
structure DbState where
  matchRows : List MatchRow
  opportunities : List OppRow
deriving DecidableEq

/-- The `best_score` accumulation loop of `match_prompts_to_pages`. -/
def bestScoreOf (ms : List MatchResultR) : Option Q :=
  ms.foldl
    (fun acc m =>
      match acc with
      | none => some m.similarity_score
      | some b => if Qlt b m.similarity_score then some m.similarity_score else some b)
    none

/-- The per-prompt body of the `match_prompts_to_pages` loop (lines
120-189): recompute matches, replace the prompt's `Match` rows, overwrite
`match_status` / `best_match_score`, and - only when the new status is
`gap` or `partial` - delete and recreate the prompt's `Opportunity`. -/
def matchOnePrompt (pages : List PageRec) (db : DbState) (p : PromptRec) :
    DbState × PromptRec :=
  let ms := findMatchesInMemory p.embedding p.raw_text pages 5
  let dbm :=
    { db with
      matchRows := db.matchRows.filter (fun m => m.prompt_id ≠ p.id) ++
        ms.map (fun m =>
          ⟨p.id, m.page_id, m.similarity_score, m.match_type, m.matched_snippet,
           toString m.rank⟩) }
  let best := bestScoreOf ms
  let p2 := { p with match_status := classifyMatchStatus best, best_match_score := best }
  if p2.match_status = "gap" ∨ p2.match_status = "partial" then
    let dbo :=
      { dbm with opportunities := dbm.opportunities.filter (fun o => o.prompt_id ≠ p.id) }
    let od := generateOpportunity p.raw_text p.topic p.popularity_score
      p.transaction_score p.sentiment_score p2.match_status best (!ms.isEmpty)
    ({ dbo with
        opportunities := dbo.opportunities ++
          [⟨p.id, od.priority_score, od.difficulty_score, od.recommended_action,
            od.reason, "new", (ms.take 3).map (fun m => m.page_id)⟩] }, p2)
  else (dbm, p2)

/-- `classify_intent_batch` (nlp_tasks.py lines 23-47): the per-record work
(classification plus the database assignments) is abstracted as a fallible
`step`; the source loop has no per-record exception handling, so the first
failure aborts the whole task and nothing further is processed, while a
fully successful run reports `{"status": "completed", "processed": n}`. -/
def classifyIntentBatch (step : ℕ → Except String Unit) (recs : List ℕ) :
    Except String (String × ℕ) :=
  match recs.foldl (fun acc r => acc.bind (fun _ => step r)) (Except.ok ()) with
  | .ok _ => .ok ("completed", recs.length)
  | .error e => .error e

/-- The batch loop of `match_prompts_to_pages` (lines 120-205): each
record's body is wrapped in `try/except`, a failure only skips that record;
the task returns the `matched` and `opportunities` counters (there is no
failure counter in the result).  The per-record body is abstracted as a
fallible `step` returning whether an opportunity was created. -/
def matchPromptsToPagesLoop {α ε : Type} (step : α → Except ε Bool)
    (recs : List α) : ℕ × ℕ :=
  recs.foldl
    (fun counts r =>
      match step r with
      | .ok oppCreated => (counts.1 + 1, if oppCreated then counts.2 + 1 else counts.2)
      | .error _ => counts)
    (0, 0)

/-! ### Predicates used to state the claims -/

/-- Whether an `Except` finished without raising. -/
def exceptOk {ε α : Type} : Except ε α → Bool
  | .ok _ => true
  | .error _ => false

/-- Stable-descending order on index/score pairs: scores are
non-increasing, and two value-equal scores carry strictly descending
candidate indices. -/
def scoreOrdered (x y : ℕ × Q) : Prop :=
  Qle y.2 x.2 ∧ (Qle x.2 y.2 → y.1 < x.1)

/-- Stable-ascending order on indices by key: earlier entries have
key-values `≤` later ones, and on value ties the indices ascend. -/
def ordA (key : ℕ → Q) (a b : ℕ) : Prop :=
  Qle (key a) (key b) ∧ (Qle (key b) (key a) → a < b)

/-- Stable insertion by descending word length (for `fiveLongestWords`). -/
def insertByLen (w : String) : List String → List String
  | [] => [w]
  | v :: vs => if v.length < w.length then w :: v :: vs else v :: insertByLen w vs

/-- The words of the prompt sorted by descending length (stable). -/
def sortByLenDesc (ws : List String) : List String :=
  ws.foldl (fun acc w => insertByLen w acc) []

/-- Modelled from the claim wording of the snippet extraction: the five
longest words of the (lowered) prompt.  The source instead takes the first
five words longer than three characters (`snippetKeywords`); this
definition exists only to compare the two. -/
def fiveLongestWords (prompt : String) : List String :=
  (sortByLenDesc (wordsOf (strLower prompt))).take 5

/-! ## Order lemmas for `Q` -/

theorem Qden_pos (a : Q) : (0 : Int) < (a.den : Int) := by
  unfold Q.den
  exact_mod_cast Nat.succ_pos a.den1

theorem Qle_refl (a : Q) : Qle a a := le_refl _

theorem Qle_total (a b : Q) : Qle a b ∨ Qle b a := le_total _ _

theorem not_Qlt {a b : Q} : ¬Qlt a b ↔ Qle b a := not_lt

theorem Qle_of_Qlt {a b : Q} (h : Qlt a b) : Qle a b := le_of_lt h

theorem not_Qle_of_Qlt {a b : Q} (h : Qlt a b) : ¬Qle b a :=
  fun h2 => absurd h (not_Qlt.mpr h2)

theorem Qle_trans {a b c : Q} (h1 : Qle a b) (h2 : Qle b c) : Qle a c := by
  unfold Qle at *
  nlinarith [Qden_pos a, Qden_pos b, Qden_pos c]

theorem Qlt_of_Qlt_of_Qle {a b c : Q} (h1 : Qlt a b) (h2 : Qle b c) : Qlt a c := by
  unfold Qlt Qle at *
  nlinarith [Qden_pos a, Qden_pos b, Qden_pos c]

theorem Qmul_comm (a b : Q) : Qmul a b = Qmul b a := by
  unfold Qmul
  rw [Int.mul_comm, Nat.mul_comm]

theorem dotQ_comm (a b : List Q) : dotQ a b = dotQ b a := by
  unfold dotQ
  rw [List.zipWith_comm_of_comm Qmul Qmul_comm]

theorem QisZero_Qmul {a b : Q} : QisZero (Qmul a b) ↔ QisZero a ∨ QisZero b := by
  unfold QisZero Qmul
  exact mul_eq_zero

/-! ## The stable argsort of `find_most_similar` -/

theorem insertAsc_length (key : ℕ → Q) (i : ℕ) :
    ∀ l : List ℕ, (insertAsc key i l).length = l.length + 1 := by
  intro l
  induction l with
  | nil => rfl
  | cons j js ih =>
    simp only [insertAsc]
    split <;> simp [ih]

theorem mem_insertAsc (key : ℕ → Q) (i : ℕ) :
    ∀ (l : List ℕ) (x : ℕ), x ∈ insertAsc key i l ↔ x = i ∨ x ∈ l := by
  intro l
  induction l with
  | nil => simp [insertAsc]
  | cons j js ih =>
    intro x
    simp only [insertAsc]
    split <;> simp [ih] <;> tauto

theorem insertAsc_pairwise (key : ℕ → Q) (i : ℕ) :
    ∀ l : List ℕ, (∀ j ∈ l, j < i) → l.Pairwise (ordA key) →
      (insertAsc key i l).Pairwise (ordA key) := by
  intro l
  induction l with
  | nil =>
    intro _ _
    simp [insertAsc]
  | cons j js ih =>
    intro hlt hp
    rw [List.pairwise_cons] at hp
    simp only [insertAsc]
    split
    case isTrue h =>
      rw [List.pairwise_cons]
      refine ⟨?_, List.pairwise_cons.mpr hp⟩
      intro m hm
      rcases List.mem_cons.mp hm with rfl | hmem
      · exact ⟨Qle_of_Qlt h, fun h2 => absurd h (not_Qlt.mpr h2)⟩
      · have hjm := hp.1 m hmem
        have him : Qlt (key i) (key m) := Qlt_of_Qlt_of_Qle h hjm.1
        exact ⟨Qle_of_Qlt him, fun h2 => absurd him (not_Qlt.mpr h2)⟩
    case isFalse h =>
      have hji : Qle (key j) (key i) := not_Qlt.mp h
      rw [List.pairwise_cons]
      constructor
      · intro m hm
        rcases (mem_insertAsc key i js m).mp hm with rfl | hmem
        · exact ⟨hji, fun _ => hlt j (List.mem_cons_self j js)⟩
        · exact hp.1 m hmem
      · exact ih (fun x hx => hlt x (List.mem_cons_of_mem j hx)) hp.2

theorem argsortAsc_succ (key : ℕ → Q) (n : ℕ) :
    argsortAsc key (n + 1) = insertAsc key n (argsortAsc key n) := by
  unfold argsortAsc
  rw [List.range_succ, List.foldl_append]
  rfl

theorem argsortAsc_length (key : ℕ → Q) : ∀ n, (argsortAsc key n).length = n
  | 0 => rfl
  | n + 1 => by
    rw [argsortAsc_succ, insertAsc_length, argsortAsc_length key n]

theorem mem_argsortAsc (key : ℕ → Q) : ∀ n x, x ∈ argsortAsc key n → x < n
  | 0, x, h => by simp [argsortAsc] at h
  | n + 1, x, h => by
    rw [argsortAsc_succ] at h
    rcases (mem_insertAsc key n _ x).mp h with rfl | hmem
    · exact Nat.lt_succ_self x
    · exact Nat.lt_succ_of_lt (mem_argsortAsc key n x hmem)

theorem argsortAsc_pairwise (key : ℕ → Q) : ∀ n, (argsortAsc key n).Pairwise (ordA key)
  | 0 => List.Pairwise.nil
  | n + 1 => by
    rw [argsortAsc_succ]
    exact insertAsc_pairwise key n _ (fun j hj => mem_argsortAsc key n j hj)
      (argsortAsc_pairwise key n)

/-! ## Structural lemmas about `find_most_similar` -/

theorem simsOf_length (q : List Q) (cs : List (List Q)) :
    (simsOf q cs).length = cs.length := by
  simp [simsOf, rawSimilarities]

theorem findMostSimilar_length (q : List Q) (cs : List (List Q)) (k : ℕ)
    (h : cs ≠ []) : (findMostSimilar q cs k).length = min k cs.length := by
  unfold findMostSimilar
  rw [if_neg h]
  simp [argsortAsc_length, simsOf_length]

theorem findMostSimilar_pairwise (q : List Q) (cs : List (List Q)) (k : ℕ) :
    (findMostSimilar q cs k).Pairwise scoreOrdered := by
  unfold findMostSimilar
  split
  · exact List.Pairwise.nil
  · rw [List.pairwise_map]
    have h1 := List.pairwise_reverse.mpr
      (argsortAsc_pairwise (fun i => (simsOf q cs).getD i Qzero) (simsOf q cs).length)
    exact List.Pairwise.sublist (List.take_sublist k _) h1

theorem findMostSimilar_mem (q : List Q) (cs : List (List Q)) (k : ℕ)
    (i : ℕ) (s : Q) (h : (i, s) ∈ findMostSimilar q cs k) :
    i < cs.length ∧ s = (simsOf q cs).getD i Qzero := by
  unfold findMostSimilar at h
  split at h
  · simp at h
  · obtain ⟨j, hj, hje⟩ := List.mem_map.mp h
    have hj1 : j = i := congrArg Prod.fst hje
    have hj2 : (simsOf q cs).getD j Qzero = s := congrArg Prod.snd hje
    subst hj1
    have hmem := List.mem_reverse.mp (List.mem_of_mem_take hj)
    have hlt := mem_argsortAsc _ _ _ hmem
    rw [simsOf_length] at hlt
    exact ⟨hlt, hj2.symm⟩

theorem getD_map_lt {α β : Type} (f : α → β) (l : List α) (i : ℕ)
    (h : i < l.length) (d : β) (d0 : α) :
    (l.map f).getD i d = f (l.getD i d0) := by
  rw [List.getD_eq_getElem?_getD, List.getD_eq_getElem?_getD, List.getElem?_map,
    List.getElem?_eq_getElem h]
  simp

/-! ## Claim theorems -/

/-- C4 (corrected).  `find_most_similar` is deterministic, returns at most
`min k n` pairs, and the pairs are sorted by non-increasing score; but on
value-equal scores the candidate indices are strictly *descending*, not
ascending as claimed (the ascending stable argsort is reversed). -/
theorem claim_C4_topk_order (q : List Q) (cs : List (List Q)) (k : ℕ) :
    findMostSimilar q cs k = findMostSimilar q cs k ∧
    (findMostSimilar q cs k).length ≤ min k cs.length ∧
    (findMostSimilar q cs k).Pairwise scoreOrdered := by
  refine ⟨rfl, ?_, findMostSimilar_pairwise q cs k⟩
  by_cases h : cs = []
  · subst h
    simp [findMostSimilar]
  · rw [findMostSimilar_length q cs k h]

/-- C4 counterexample: two identical candidates give value-equal scores,
and the returned index order is `[1, 0]`, not the claimed ascending
`[0, 1]`. -/
theorem claim_C4_cex :
    ((findMostSimilar [Qone] [[Qone], [Qone]] 2).map Prod.fst = [1, 0]) ∧
    ((findMostSimilar [Qone] [[Qone], [Qone]] 2).map Prod.fst ≠ [0, 1]) ∧
    Qle (((findMostSimilar [Qone] [[Qone], [Qone]] 2).map Prod.snd).getD 0 Qzero)
      (((findMostSimilar [Qone] [[Qone], [Qone]] 2).map Prod.snd).getD 1 Qzero) ∧
    Qle (((findMostSimilar [Qone] [[Qone], [Qone]] 2).map Prod.snd).getD 1 Qzero)
      (((findMostSimilar [Qone] [[Qone], [Qone]] 2).map Prod.snd).getD 0 Qzero) := by
  decide

/-- C5 (corrected).  `find_most_similar` returns `[]` on an empty candidate
list, and a candidate whose norm product with the query is zero (the NaN
case of the float code) gets the clamped-cosine-`0` score - which after the
`(s+1)/2` remapping surfaces in the output as `1/2`, not as `0` as
claimed. -/
theorem claim_C5_empty_and_zero_norm :
    (∀ (q : List Q) (k : ℕ), findMostSimilar q [] k = []) ∧
    (∀ (q : List Q) (cs : List (List Q)) (k i : ℕ) (s : Q),
      (i, s) ∈ findMostSimilar q cs k →
      QisZero (Qmul (normQ (cs.getD i [])) (normQ q)) → s = qc 1 2) := by
  constructor
  · intro q k
    rfl
  · intro q cs k i s hm hz
    obtain ⟨hi, hs⟩ := findMostSimilar_mem q cs k i s hm
    subst hs
    unfold simsOf
    rw [getD_map_lt _ _ i (by simpa [rawSimilarities] using hi) Qzero Qzero]
    unfold rawSimilarities
    rw [getD_map_lt _ _ i hi Qzero []]
    rw [if_pos hz]
    rfl

theorem claim_C5_witness :
    ((0, qc 1 2) ∈ findMostSimilar [Qzero] [[Qone]] 1) ∧
    QisZero (Qmul (normQ ([[Qone]].getD 0 [])) (normQ [Qzero])) ∧
    qc 1 2 = qc 1 2 :=
  ⟨by decide, by decide,
    claim_C5_empty_and_zero_norm.2 [Qzero] [[Qone]] 1 0 (qc 1 2) (by decide) (by decide)⟩

/-- C5 counterexample: with a zero-norm query the returned score is `1/2`,
which is not `0`. -/
theorem claim_C5_cex :
    findMostSimilar [Qzero] [[Qone]] 1 = [(0, qc 1 2)] ∧ ¬QisZero (qc 1 2) := by
  decide

/-- C10 (corrected).  The batch score of `find_most_similar` agrees with
the pairwise `similarity` whenever both the query norm and the candidate
norm are nonzero; at a zero norm they disagree (`0.5` versus `0`, see the
counterexample). -/
theorem claim_C10_batch_vs_pairwise (q : List Q) (cs : List (List Q)) (k i : ℕ)
    (s : Q) (hm : (i, s) ∈ findMostSimilar q cs k)
    (hq : ¬QisZero (normQ q)) (hc : ¬QisZero (normQ (cs.getD i []))) :
    s = similarity q (cs.getD i []) := by
  obtain ⟨hi, hs⟩ := findMostSimilar_mem q cs k i s hm
  subst hs
  unfold simsOf
  rw [getD_map_lt _ _ i (by simpa [rawSimilarities] using hi) Qzero Qzero]
  unfold rawSimilarities
  rw [getD_map_lt _ _ i hi Qzero []]
  have hnz : ¬QisZero (Qmul (normQ (cs.getD i [])) (normQ q)) := by
    rw [QisZero_Qmul]
    tauto
  rw [if_neg hnz]
  unfold similarity
  rw [if_neg (by tauto : ¬(QisZero (normQ q) ∨ QisZero (normQ (cs.getD i []))))]
  rw [dotQ_comm (cs.getD i []) q, Qmul_comm (normQ (cs.getD i [])) (normQ q)]

theorem claim_C10_witness :
    ((0, ((findMostSimilar [Qone] [[Qone]] 1).getD 0 (0, Qzero)).2) ∈
      findMostSimilar [Qone] [[Qone]] 1) ∧
    ¬QisZero (normQ [Qone]) ∧ ¬QisZero (normQ ([[Qone]].getD 0 [])) ∧
    ((findMostSimilar [Qone] [[Qone]] 1).getD 0 (0, Qzero)).2 =
      similarity [Qone] ([[Qone]].getD 0 []) :=
  ⟨by decide, by decide, by decide,
    claim_C10_batch_vs_pairwise [Qone] [[Qone]] 1 0 _ (by decide) (by decide) (by decide)⟩

/-- C10 counterexample: with a zero-norm query, the pairwise `similarity`
is `0` while the batch path reports `1/2` - strictly larger, so the two
paths do not agree there. -/
theorem claim_C10_cex :
    ((0, ((findMostSimilar [Qzero] [[Qint 2]] 1).getD 0 (0, Qzero)).2) ∈
      findMostSimilar [Qzero] [[Qint 2]] 1) ∧
    Qlt (similarity [Qzero] ([[Qint 2]].getD 0 []))
      (((findMostSimilar [Qzero] [[Qint 2]] 1).getD 0 (0, Qzero)).2) := by
  decide

theorem map_rank_enum {β : Type} (g : ℕ × β → MatchResultR)
    (hg : ∀ pr, (g pr).rank = pr.1 + 1) (l : List β) :
    (l.enum.map g).map (fun m => m.rank) = List.range' 1 l.length := by
  rw [List.map_map]
  have h1 : ((fun m : MatchResultR => m.rank) ∘ g) = fun pr => pr.1 + 1 :=
    funext fun pr => hg pr
  rw [h1]
  have h2 : (fun pr : ℕ × β => pr.1 + 1) = (fun n => n + 1) ∘ Prod.fst := rfl
  rw [h2, ← List.map_map, List.enum_map_fst, List.range'_eq_map_range]
  simp [Nat.add_comm]

theorem findMatchesInMemory_ranks (e : List Q) (t : String) (pages : List PageRec)
    (k : ℕ) :
    (findMatchesInMemory e t pages k).map (fun m => m.rank) =
      List.range' 1 (findMatchesInMemory e t pages k).length := by
  by_cases hp : pages = []
  · subst hp
    simp [findMatchesInMemory]
  · unfold findMatchesInMemory
    rw [if_neg hp]
    simp only [List.length_map, List.enum_length]
    exact map_rank_enum _ (fun pr => rfl) _

theorem findMatchesInMemory_length (e : List Q) (t : String) (pages : List PageRec)
    (k : ℕ) (hp : pages ≠ []) :
    (findMatchesInMemory e t pages k).length = min k (min (k * 2) pages.length) := by
  unfold findMatchesInMemory
  rw [if_neg hp]
  simp only [List.length_map, List.enum_length, List.length_take]
  rw [findMostSimilar_length _ _ _ (by simpa using hp)]
  simp

/-- C3 (corrected).  The matcher's ranks are exactly `1, …, n` (hence
contiguous, with exactly one rank-1 entry as soon as the corpus and `k` are
nonempty), and the reported scores are non-increasing in rank as long as no
match got the exact-match score floor; the floor itself can push a
later-ranked exact match above an earlier semantic one (see the
counterexample), so the ordering does not survive it. -/
theorem claim_C3_ranks_and_scores (e : List Q) (t : String) (pages : List PageRec)
    (k : ℕ) :
    ((findMatchesInMemory e t pages k).map (fun m => m.rank) =
      List.range' 1 (findMatchesInMemory e t pages k).length) ∧
    (pages ≠ [] → 1 ≤ k →
      ((findMatchesInMemory e t pages k).map (fun m => m.rank)).count 1 = 1) ∧
    ((∀ m ∈ findMatchesInMemory e t pages k, m.match_type ≠ "exact") →
      ((findMatchesInMemory e t pages k).map (fun m => m.similarity_score)).Pairwise
        (fun a b => Qle b a)) := by
  refine ⟨findMatchesInMemory_ranks e t pages k, ?_, ?_⟩
  · intro hp hk
    rw [findMatchesInMemory_ranks e t pages k]
    have hlen : 0 < (findMatchesInMemory e t pages k).length := by
      rw [findMatchesInMemory_length e t pages k hp]
      have hpl : 0 < pages.length := List.length_pos.mpr hp
      omega
    exact List.count_eq_one_of_mem (List.nodup_range' 1 _)
      (List.mem_range'.mpr ⟨0, hlen, by simp⟩)
  · intro hex
    by_cases hp : pages = []
    · subst hp
      simp [findMatchesInMemory]
    · unfold findMatchesInMemory at hex ⊢
      rw [if_neg hp] at hex ⊢
      rw [List.map_map, List.pairwise_map]
      have hl : ((findMostSimilar e (pages.map (fun p => p.embedding)) (k * 2)).take
          k).Pairwise (fun a b : ℕ × Q => Qle b.2 a.2) :=
        (List.Pairwise.sublist (List.take_sublist k _)
          (findMostSimilar_pairwise e (pages.map (fun p => p.embedding)) (k * 2))).imp
          (fun h => h.1)
      have henum := (List.pairwise_map (f := Prod.snd)
          (R := fun a b : ℕ × Q => Qle b.2 a.2)
          (l := ((findMostSimilar e (pages.map (fun p => p.embedding))
            (k * 2)).take k).enum)).mp
        (by rw [List.enum_map_snd]; exact hl)
      refine List.Pairwise.imp_of_mem ?_ henum
      intro a b ha hb hab
      have hea : checkExactMatch t ((pages.getD a.2.1 default).content) = false := by
        by_contra hcc
        rw [Bool.not_eq_false] at hcc
        refine (hex _ (List.mem_map_of_mem _ ha)) ?_
        show (if checkExactMatch t ((pages.getD a.2.1 default).content) = true
          then "exact"
          else if Qle thresholdPartialQ a.2.2 then "semantic" else "partial") = "exact"
        rw [if_pos hcc]
      have heb : checkExactMatch t ((pages.getD b.2.1 default).content) = false := by
        by_contra hcc
        rw [Bool.not_eq_false] at hcc
        refine (hex _ (List.mem_map_of_mem _ hb)) ?_
        show (if checkExactMatch t ((pages.getD b.2.1 default).content) = true
          then "exact"
          else if Qle thresholdPartialQ b.2.2 then "semantic" else "partial") = "exact"
        rw [if_pos hcc]
      have hna : ¬(checkExactMatch t ((pages.getD a.2.1 default).content) = true) := by
        rw [hea]
        exact Bool.false_ne_true
      have hnb : ¬(checkExactMatch t ((pages.getD b.2.1 default).content) = true) := by
        rw [heb]
        exact Bool.false_ne_true
      show Qle
        (if checkExactMatch t ((pages.getD b.2.1 default).content) = true
          then Qmax b.2.2 (qc 85 100) else b.2.2)
        (if checkExactMatch t ((pages.getD a.2.1 default).content) = true
          then Qmax a.2.2 (qc 85 100) else a.2.2)
      rw [if_neg hna, if_neg hnb]
      exact hab

theorem claim_C3_witness :
    ((findMatchesInMemory [Qone] "zz" [⟨5, [Qone], "doc", "t"⟩] 1).map
        (fun m => m.rank) =
      List.range' 1 (findMatchesInMemory [Qone] "zz" [⟨5, [Qone], "doc", "t"⟩] 1).length) ∧
    (((findMatchesInMemory [Qone] "zz" [⟨5, [Qone], "doc", "t"⟩] 1).map
        (fun m => m.rank)).count 1 = 1) ∧
    (((findMatchesInMemory [Qone] "zz" [⟨5, [Qone], "doc", "t"⟩] 1).map
        (fun m => m.similarity_score)).Pairwise (fun a b => Qle b a)) :=
  ⟨(claim_C3_ranks_and_scores [Qone] "zz" [⟨5, [Qone], "doc", "t"⟩] 1).1,
   (claim_C3_ranks_and_scores [Qone] "zz" [⟨5, [Qone], "doc", "t"⟩] 1).2.1
     (by decide) (by decide),
   (claim_C3_ranks_and_scores [Qone] "zz" [⟨5, [Qone], "doc", "t"⟩] 1).2.2 (by decide)⟩

/-- C3 counterexample: the rank-1 page is only semantically similar
(score `0.8`) while the rank-2 page is an exact lexical match whose score
is floored to `0.85`, so the reported scores increase with rank. -/
theorem claim_C3_cex :
    ((findMatchesInMemory [Qint 3, Qint 4] "alpha beta gamma"
        [⟨10, [Qone, Qzero], "nothing relevant zzz", "t0"⟩,
         ⟨11, [Qint 4, Qint (-3)], "alpha beta gamma here", "t1"⟩] 5).map
      (fun m => (m.rank, m.match_type)) = [(1, "semantic"), (2, "exact")]) ∧
    Qlt (((findMatchesInMemory [Qint 3, Qint 4] "alpha beta gamma"
        [⟨10, [Qone, Qzero], "nothing relevant zzz", "t0"⟩,
         ⟨11, [Qint 4, Qint (-3)], "alpha beta gamma here", "t1"⟩] 5).map
      (fun m => m.similarity_score)).getD 0 Qzero)
      (((findMatchesInMemory [Qint 3, Qint 4] "alpha beta gamma"
        [⟨10, [Qone, Qzero], "nothing relevant zzz", "t0"⟩,
         ⟨11, [Qint 4, Qint (-3)], "alpha beta gamma here", "t1"⟩] 5).map
      (fun m => m.similarity_score)).getD 1 Qzero) := by
  decide

theorem foldl_argmax_spec (f : ℕ → ℕ) :
    ∀ (l : List ℕ) (b s : ℕ), s ≤ f b →
      ((l.foldl (fun best i => if f i > best.2 then (i, f i) else best) (b, s)).1 = b ∨
       (l.foldl (fun best i => if f i > best.2 then (i, f i) else best) (b, s)).1 ∈ l) ∧
      (l.foldl (fun best i => if f i > best.2 then (i, f i) else best) (b, s)).2 ≤
        f ((l.foldl (fun best i => if f i > best.2 then (i, f i) else best) (b, s)).1) ∧
      s ≤ (l.foldl (fun best i => if f i > best.2 then (i, f i) else best) (b, s)).2 ∧
      ∀ i ∈ l, f i ≤
        (l.foldl (fun best i => if f i > best.2 then (i, f i) else best) (b, s)).2 := by
  intro l
  induction l with
  | nil =>
    intro b s hs
    exact ⟨Or.inl rfl, hs, le_refl s, by simp⟩
  | cons j js ih =>
    intro b s hs
    rw [List.foldl_cons]
    by_cases hj : f j > s
    · rw [if_pos hj]
      obtain ⟨h1, h2, h3, h4⟩ := ih j (f j) (le_refl _)
      refine ⟨?_, h2, ?_, ?_⟩
      · rcases h1 with he | hm
        · exact Or.inr (by rw [he]; exact List.mem_cons_self j js)
        · exact Or.inr (List.mem_cons_of_mem j hm)
      · exact le_trans (le_of_lt hj) h3
      · intro i hi
        rcases List.mem_cons.mp hi with rfl | hmem
        · exact h3
        · exact h4 i hmem
    · rw [if_neg hj]
      push_neg at hj
      obtain ⟨h1, h2, h3, h4⟩ := ih b s hs
      refine ⟨?_, h2, h3, ?_⟩
      · rcases h1 with he | hm
        · exact Or.inl he
        · exact Or.inr (List.mem_cons_of_mem j hm)
      · intro i hi
        rcases List.mem_cons.mp hi with rfl | hmem
        · exact le_trans hj h3
        · exact h4 i hmem

/-- C9 (corrected).  The snippet keywords are the *first five* words of
the prompt longer than three characters - not the five longest words as
claimed (see the counterexample) - and with keywords present the returned
snippet is the window (among starts `0, 50, …` strictly below
`len - 300`) holding the largest number of distinct keywords, counted as
distinct keywords rather than occurrences; with no keywords the first 300
characters are returned, with `"..."` appended when the content is
longer. -/
theorem claim_C9_snippet (p c : String) (hc : c ≠ "") :
    (snippetKeywords p = [] →
      extractSnippet p c 300 =
        some (if c.toList.length > 300 then strTake c 300 ++ "..." else c)) ∧
    (snippetKeywords p ≠ [] →
      ((bestWindow (snippetKeywords p) c 300).1 = 0 ∨
        (bestWindow (snippetKeywords p) c 300).1 ∈ snippetStarts c 300) ∧
      extractSnippet p c 300 =
        some (dressSnippet c (bestWindow (snippetKeywords p) c 300).1 300) ∧
      ∀ i ∈ snippetStarts c 300,
        snipScore (snippetKeywords p) (strLower c) 300 i ≤
          snipScore (snippetKeywords p) (strLower c) 300
            (bestWindow (snippetKeywords p) c 300).1) := by
  constructor
  · intro hk
    unfold extractSnippet
    rw [if_neg hc, if_pos hk]
  · intro hk
    have hspec := foldl_argmax_spec (snipScore (snippetKeywords p) (strLower c) 300)
      (snippetStarts c 300) 0 0 (Nat.zero_le _)
    refine ⟨hspec.1, ?_, ?_⟩
    · unfold extractSnippet
      rw [if_neg hc, if_neg hk]
    · intro i hi
      exact le_trans (hspec.2.2.2 i hi) hspec.2.1

theorem claim_C9_witness :
    (("abc" : String) ≠ "") ∧ (snippetKeywords "hello world" ≠ []) ∧
    (((bestWindow (snippetKeywords "hello world") "abc" 300).1 = 0 ∨
      (bestWindow (snippetKeywords "hello world") "abc" 300).1 ∈
        snippetStarts "abc" 300) ∧
     extractSnippet "hello world" "abc" 300 =
       some (dressSnippet "abc" (bestWindow (snippetKeywords "hello world") "abc" 300).1
         300) ∧
     ∀ i ∈ snippetStarts "abc" 300,
       snipScore (snippetKeywords "hello world") (strLower "abc") 300 i ≤
         snipScore (snippetKeywords "hello world") (strLower "abc") 300
           (bestWindow (snippetKeywords "hello world") "abc" 300).1) :=
  ⟨by decide, by decide, (claim_C9_snippet "hello world" "abc" (by decide)).2 (by decide)⟩

set_option maxRecDepth 100000 in
/-- C9 counterexample: with keywords taken as the five *longest* prompt
words (the claim's rule), the window at start 50 contains one keyword
occurrence (`verylongword`) while the code returns the window at start 0,
which contains none - so the code does not return the most-occupied window
for the claimed keyword set. -/
theorem claim_C9_cex :
    extractSnippet "abcd efgh ijkl mnop qrst verylongword"
        (String.mk (List.replicate 330 'z' ++ "verylongword".toList ++
          List.replicate 58 'q')) 300 =
      some (strTake (String.mk (List.replicate 330 'z' ++ "verylongword".toList ++
          List.replicate 58 'q')) 300 ++ "...") ∧
    "verylongword" ∈ fiveLongestWords "abcd efgh ijkl mnop qrst verylongword" ∧
    snipScore (fiveLongestWords "abcd efgh ijkl mnop qrst verylongword")
      (strLower (String.mk (List.replicate 330 'z' ++ "verylongword".toList ++
        List.replicate 58 'q'))) 300 0 = 0 ∧
    snipScore (fiveLongestWords "abcd efgh ijkl mnop qrst verylongword")
      (strLower (String.mk (List.replicate 330 'z' ++ "verylongword".toList ++
        List.replicate 58 'q'))) 300 50 = 1 := by
  decide

set_option maxRecDepth 100000 in
/-- C1 (code bug).  On the input `"buy error"`, the troubleshooting and
transactional categories tie with normalised score `0.4 ≥ 0.25`;
troubleshooting precedes transactional in the priority order, so by the
claim (and by the source's own comment "earlier = higher priority for
tie-breaking") troubleshooting should win - but the selection loop updates
on `score >= best_score`, so the *later* tied category, transactional, is
returned. -/
theorem claim_C1_tiebreak_eval :
    (classify "buy error").intent = IntentType.transactional ∧
    (scoresOf "buy error" IntentType.troubleshooting).1 =
      (scoresOf "buy error" IntentType.transactional).1 ∧
    Qle scoreThreshold (scoresOf "buy error" IntentType.troubleshooting).1 ∧
    priorityOrder.indexOf IntentType.troubleshooting <
      priorityOrder.indexOf IntentType.transactional := by
  decide

set_option maxRecDepth 100000 in
/-- C2 (code bug).  A prompt in status `gap` that owns an Opportunity is
re-matched against a perfectly matching page; the new status is
`answered`, but its old Opportunity row survives the run because the
delete statement only executes inside the gap/partial branch - violating
the claimed existence iff-invariant. -/
theorem claim_C2_stale_opportunity_eval :
    ((matchOnePrompt [⟨1, [Qint 3, Qint 4], "paris flights info", "t"⟩]
        ⟨[], [⟨7, Qzero, Qone, "create_article",
          "No related content - create new informational article", "new", []⟩]⟩
        ⟨7, [Qint 3, Qint 4], "paris flights", none, none, Qzero, none, "gap",
          none⟩).2.match_status = "answered") ∧
    (((matchOnePrompt [⟨1, [Qint 3, Qint 4], "paris flights info", "t"⟩]
        ⟨[], [⟨7, Qzero, Qone, "create_article",
          "No related content - create new informational article", "new", []⟩]⟩
        ⟨7, [Qint 3, Qint 4], "paris flights", none, none, Qzero, none, "gap",
          none⟩).1.opportunities.filter (fun o => o.prompt_id == 7)).length = 1) := by
  decide

/-- C6 (corrected).  The priority score is the claimed clamped linear
combination, except that Python's `popularity_score or 0.5` also replaces
a present popularity of `0.0` by `0.5` (zero is falsy), not only an absent
one. -/
theorem claim_C6_priority_formula (pt : String) (topic : Option String)
    (pop : Option Q) (ts : Q) (ss : Option Q) (ms : String) (bms : Option Q)
    (hrp : Bool) :
    (generateOpportunity pt topic pop ts ss ms bms hrp).priority_score =
      Qmax Qzero (Qmin Qone (Qsub (Qadd (Qadd
        (Qmul (qc 4 10)
          (match pop with
           | some p => if QisZero p then qc 5 10 else p
           | none => qc 5 10))
        (Qmul (qc 3 10) ts))
        (Qmul (qc 2 10)
          (match ss with
           | some s => if QisZero s then Qzero else Qabs s
           | none => Qzero)))
        (Qmul (qc 1 10)
          (generateOpportunity pt topic pop ts ss ms bms hrp).difficulty_score))) :=
  rfl

set_option maxRecDepth 100000 in
/-- C6 counterexample: with a present popularity of `0.0` (and zero
transaction score, absent sentiment, status `gap`, related pages), the
code's priority is `0.18425` (popularity replaced by `0.5`), while the
claimed formula with popularity used as `0.0` would clamp to `0`. -/
theorem claim_C6_cex :
    Qle (qc 737 4000)
      (generateOpportunity "hi" none (some Qzero) Qzero none "gap" none
        true).priority_score ∧
    Qle (generateOpportunity "hi" none (some Qzero) Qzero none "gap" none
        true).priority_score (qc 737 4000) ∧
    ¬QisZero (generateOpportunity "hi" none (some Qzero) Qzero none "gap" none
        true).priority_score ∧
    QisZero (Qmax Qzero (Qmin Qone (Qsub (Qadd (Qadd (Qmul (qc 4 10) Qzero)
      (Qmul (qc 3 10) Qzero)) (Qmul (qc 2 10) Qzero))
      (Qmul (qc 1 10)
        (generateOpportunity "hi" none (some Qzero) Qzero none "gap" none
          true).difficulty_score)))) := by
  decide

theorem matchLoop_count {α ε : Type} (step : α → Except ε Bool) :
    ∀ (recs : List α) (c : ℕ × ℕ),
      (recs.foldl
        (fun counts r =>
          match step r with
          | .ok oppCreated =>
            (counts.1 + 1, if oppCreated then counts.2 + 1 else counts.2)
          | .error _ => counts) c).1 =
        c.1 + (recs.filter (fun r => exceptOk (step r))).length := by
  intro recs
  induction recs with
  | nil =>
    intro c
    simp
  | cons r rs ih =>
    intro c
    rw [List.foldl_cons, List.filter_cons]
    cases hstep : step r with
    | ok b =>
      rw [ih]
      have hok : exceptOk (Except.ok b : Except ε Bool) = true := rfl
      rw [hok, if_pos rfl]
      show (c.1 + 1) + (rs.filter (fun r => exceptOk (step r))).length =
        c.1 + ((rs.filter (fun r => exceptOk (step r))).length + 1)
      omega
    | error e =>
      rw [ih]
      have herr : exceptOk (Except.error e : Except ε Bool) = false := rfl
      rw [herr, if_neg (by simp)]

theorem exceptFold_error {ε : Type} (step : ℕ → Except ε Unit) :
    ∀ (recs : List ℕ) (e : ε),
      recs.foldl (fun acc r => acc.bind (fun _ => step r)) (Except.error e) =
        .error e := by
  intro recs
  induction recs with
  | nil =>
    intro e
    rfl
  | cons r rs ih =>
    intro e
    rw [List.foldl_cons]
    exact ih e

theorem exceptFold_ok_iff (step : ℕ → Except String Unit) :
    ∀ recs : List ℕ,
      exceptOk (recs.foldl (fun acc r => acc.bind (fun _ => step r)) (Except.ok ())) =
        recs.all (fun r => exceptOk (step r)) := by
  intro recs
  induction recs with
  | nil => rfl
  | cons r rs ih =>
    rw [List.foldl_cons, List.all_cons]
    have hbind : (Except.ok ()).bind (fun _ => step r) = step r := rfl
    rw [hbind]
    cases hstep : step r with
    | ok u =>
      cases u
      rw [← ih]
      simp [hstep, exceptOk]
    | error e =>
      rw [exceptFold_error step rs e]
      simp [hstep, exceptOk]

/-- C7 (corrected).  The matching batch (`match_prompts_to_pages`) indeed
skips a failing record and counts only successfully matched records (it
reports matched/opportunity counters, not a failed counter); but the
classification batch (`classify_intent_batch`) has no per-record handling:
it completes only if every record's step succeeds, and a single failure
aborts the whole task (see the counterexample). -/
theorem claim_C7_batch_error_handling :
    (∀ (step : ℕ → Except String Bool) (recs : List ℕ),
      (matchPromptsToPagesLoop step recs).1 =
        (recs.filter (fun r => exceptOk (step r))).length) ∧
    (∀ (step : ℕ → Except String Unit) (recs : List ℕ),
      exceptOk (classifyIntentBatch step recs) =
        recs.all (fun r => exceptOk (step r))) := by
  constructor
  · intro step recs
    unfold matchPromptsToPagesLoop
    rw [matchLoop_count step recs (0, 0)]
    simp
  · intro step recs
    unfold classifyIntentBatch
    have h := exceptFold_ok_iff step recs
    split
    case h_1 x heq =>
      rw [heq] at h
      rw [← h]
      rfl
    case h_2 e heq =>
      rw [heq] at h
      rw [← h]
      rfl

/-- C7 counterexample: with a step that fails on record `0` and succeeds
on record `1`, `classify_intent_batch` aborts with the error - record `1`
is not processed and no processed/failed counts are reported. -/
theorem claim_C7_cex :
    classifyIntentBatch
        (fun n => if n = 0 then .error "db failure" else .ok ()) [0, 1] =
      .error "db failure" ∧
    (fun n => if n = 0 then (Except.error "db failure" : Except String Unit)
      else .ok ()) 1 = .ok () :=
  ⟨rfl, rfl⟩

/-- C8 (corrected).  On the fallback path the code sets the internal best
score to `0.3` and then computes `confidence = min(1, best_score * 1.5)`,
so the confidence of every fallback classification is `0.45`, not `0.3` as
claimed. -/
theorem claim_C8_fallback_confidence (t : String)
    (h1 : ¬(t = "" ∨ strTrim t = ""))
    (h2 : Qlt (pickBest (strTrim (strLower t))).2.1 scoreThreshold) :
    (classify t).confidence = qc 45 100 := by
  unfold classify
  rw [if_neg h1]
  show Qmin Qone (Qmul
    (if Qlt (pickBest (strTrim (strLower t))).2.1 scoreThreshold then
      ((applyFallbackRules (strTrim (strLower t))).1, (qc 3 10 : Q),
        (applyFallbackRules (strTrim (strLower t))).2)
    else pickBest (strTrim (strLower t))).2.1 (qc 15 10)) = qc 45 100
  rw [if_pos h2]
  rfl

set_option maxRecDepth 100000 in
theorem claim_C8_witness :
    (¬(("hello" : String) = "" ∨ strTrim "hello" = "")) ∧
    Qlt (pickBest (strTrim (strLower "hello"))).2.1 scoreThreshold ∧
    (classify "hello").confidence = qc 45 100 :=
  ⟨by decide, by decide, claim_C8_fallback_confidence "hello" (by decide) (by decide)⟩

set_option maxRecDepth 100000 in
/-- C8 counterexample: `"hello"` matches no pattern, so classification
falls back; the returned confidence is `0.45`, which is not `0.3`. -/
theorem claim_C8_cex :
    Qlt (pickBest (strTrim (strLower "hello"))).2.1 scoreThreshold ∧
    (classify "hello").confidence = qc 45 100 ∧
    ¬Qle (classify "hello").confidence (qc 3 10) := by
  decide

end LLMO

